import Mathlib

/-!
Verification of the AVM "exact" payment scheme of the x402 repository
(python/x402/mechanisms/avm).  The Python modules `constants.py`, `utils.py`,
`exact/facilitator.py`, `exact/server.py`, `exact/client.py` and
`exact/v1/facilitator.py` are shallowly embedded: pure functions become Lean
functions, Python exceptions become `Except String`, and the external
collaborators (the algosdk msgpack decoder and the chain RPC calls made
through the signer capability) are modelled as oracle fields of an
environment record, since their code is not part of this repository.
-/

deriving instance DecidableEq for Except

namespace X402

/-- Character-list view of leading-prefix test (Python `str.startswith`). -/
def charsBeginWith : List Char → List Char → Bool
  | _, [] => true
  | [], _ :: _ => false
  | c :: cs, p :: ps => c == p && charsBeginWith cs ps

/-- Python `str.startswith` on whole strings. -/
def strBeginsWith (s p : String) : Bool := charsBeginWith s.data p.data

/-- Python `str.strip()`: drop whitespace from both ends. -/
def trimChars (l : List Char) : List Char :=
  ((l.dropWhile Char.isWhitespace).reverse.dropWhile Char.isWhitespace).reverse

/-- Split a character list at every occurrence of `sep`
(Python `str.split(sep)` for a one-character separator). -/
def splitOnChar (sep : Char) : List Char → List (List Char)
  | [] => [[]]
  | c :: cs =>
    if c == sep then [] :: splitOnChar sep cs
    else
      match splitOnChar sep cs with
      | [] => [[c]]
      | g :: gs => (c :: g) :: gs

/-- Value of a digit string. -/
def digitsVal (l : List Char) : Nat :=
  l.foldl (fun n c => 10 * n + (c.toNat - 48)) 0

/-- Python truthiness of an optional string: `None` and `""` are falsy. -/
def truthyStr : Option String → Bool
  | none => false
  | some s => !(s == "")

/-- Python truthiness of an optional integer: `None` and `0` are falsy. -/
def truthyInt : Option Int → Bool
  | none => false
  | some n => !(n == 0)

/-- First value bound to `k` in an association list (a Python dict `.get`). -/
def dictGet (l : List (String × String)) (k : String) : Option String :=
  (l.find? (fun p => p.1 == k)).map (fun p => p.2)

/-- Map a fallible function over a list, stopping at the first failure
(the Python `for`-loop with `try`/`except` around each decode). -/
def mapExcept (f : α → Except String β) : List α → Except String (List β)
  | [] => .ok []
  | a :: as =>
    match f a with
    | .error e => .error e
    | .ok b =>
      match mapExcept f as with
      | .error e => .error e
      | .ok bs => .ok (b :: bs)

/-- A signed digit sequence: optional `+`/`-` sign, then decimal digits. -/
def intFromChars (l : List Char) : Option Int :=
  let core := if charsBeginWith l ['-'] || charsBeginWith l ['+'] then l.drop 1 else l
  let sign : Int := if charsBeginWith l ['-'] then -1 else 1
  if core.length > 0 && core.all Char.isDigit then
    some (sign * (digitsVal core : Int))
  else none

/-- Python `int(s)` on a decimal string: optional surrounding whitespace,
optional sign, then decimal digits.  (Underscore digit separators, accepted
by CPython, are not modelled; no input in this development uses them.) -/
def str_to_int (s : String) : Except String Int :=
  match intFromChars (trimChars s.data) with
  | some n => .ok n
  | none => .error ("invalid literal for int with base 10: " ++ s)

/-! ### Constants (constants.py) -/

def SCHEME_EXACT : String := "exact"
def DEFAULT_DECIMALS : Nat := 6
def MIN_TXN_FEE : Int := 1000
def MAX_GROUP_SIZE : Nat := 16
def MAX_REASONABLE_FEE : Int := 16000

def USDC_MAINNET_ASA_ID : Int := 31566704
def USDC_TESTNET_ASA_ID : Int := 10458941

def MAINNET_GENESIS_HASH : String := "wGHE2Pwdvd7S12BL5FaOP20EGYesN73ktiC1qzkkit8="
def TESTNET_GENESIS_HASH : String := "SGO1GKSzyE7IEPItTxCByw9x8FmnrCDexi9/cOUJOiI="

def ALGORAND_MAINNET_CAIP2 : String := "algorand:" ++ MAINNET_GENESIS_HASH
def ALGORAND_TESTNET_CAIP2 : String := "algorand:" ++ TESTNET_GENESIS_HASH

def V1_TO_V2_NETWORK_MAP : List (String × String) :=
  [("algorand-mainnet", ALGORAND_MAINNET_CAIP2),
   ("algorand-testnet", ALGORAND_TESTNET_CAIP2),
   ("algorand", ALGORAND_MAINNET_CAIP2)]

def V2_TO_V1_NETWORK_MAP : List (String × String) :=
  [(ALGORAND_MAINNET_CAIP2, "algorand-mainnet"),
   (ALGORAND_TESTNET_CAIP2, "algorand-testnet")]

def TXN_TYPE_PAYMENT : String := "pay"
def TXN_TYPE_ASSET_TRANSFER : String := "axfer"
def TXN_TYPE_KEY_REGISTRATION : String := "keyreg"

def BLOCKED_TXN_TYPES : List String := [TXN_TYPE_KEY_REGISTRATION]

def ERR_UNSUPPORTED_SCHEME : String := "unsupported_scheme"
def ERR_NETWORK_MISMATCH : String := "network_mismatch"
def ERR_INVALID_PAYMENT_INDEX : String := "invalid_exact_avm_payload_payment_index"
def ERR_GROUP_TOO_LARGE : String := "invalid_exact_avm_payload_group_too_large"
def ERR_EMPTY_GROUP : String := "invalid_exact_avm_payload_empty_group"
def ERR_GROUP_DECODE_FAILED : String := "invalid_exact_avm_payload_group_decode_failed"
def ERR_BLOCKED_TXN_TYPE : String := "invalid_exact_avm_payload_blocked_transaction_type"
def ERR_INVALID_ASSET_ID : String := "invalid_exact_avm_payload_asset_id_mismatch"
def ERR_RECIPIENT_MISMATCH : String := "invalid_exact_avm_payload_recipient_mismatch"
def ERR_AMOUNT_INSUFFICIENT : String := "invalid_exact_avm_payload_amount_insufficient"
def ERR_INVALID_GROUP_ID : String := "invalid_exact_avm_payload_group_id_mismatch"
def ERR_MISSING_GROUP_ID : String := "invalid_exact_avm_payload_missing_group_id"
def ERR_MISSING_SIGNATURE : String := "invalid_exact_avm_payload_missing_signature"
def ERR_FEE_PAYER_MISSING : String := "invalid_exact_avm_payload_missing_fee_payer"
def ERR_FEE_PAYER_NOT_MANAGED : String := "fee_payer_not_managed_by_facilitator"
def ERR_FEE_PAYER_INVALID_TXN : String := "invalid_exact_avm_payload_fee_payer_transaction_invalid"
def ERR_FEE_PAYER_TRANSFERRING : String := "invalid_exact_avm_payload_fee_payer_transferring_funds"
def ERR_FEE_PAYER_HAS_AMOUNT : String := "invalid_exact_avm_payload_fee_payer_has_amount"
def ERR_FEE_PAYER_HAS_CLOSE : String := "invalid_exact_avm_payload_fee_payer_has_close_to"
def ERR_FEE_PAYER_HAS_REKEY : String := "invalid_exact_avm_payload_fee_payer_has_rekey_to"
def ERR_SIMULATION_FAILED : String := "transaction_simulation_failed"
def ERR_TRANSACTION_FAILED : String := "transaction_failed"
def ERR_REKEY_DETECTED : String := "invalid_exact_avm_payload_rekey_detected"
def ERR_CLOSE_TO_DETECTED : String := "invalid_exact_avm_payload_close_to_detected"
def ERR_GENESIS_HASH_MISMATCH : String := "invalid_exact_avm_payload_genesis_hash_mismatch"

/-- The fields of a `NetworkConfig` entry read by the functions modelled
here (the algod and indexer URLs are environment-dependent and unused). -/
structure NetworkConfig where
  genesis_hash : String
  genesis_id : String
  asa_id : Int
  asset_name : String
  asset_decimals : Nat
deriving DecidableEq

/-- `NETWORK_CONFIGS` keyed by CAIP-2 identifier. -/
def NETWORK_CONFIGS (caip2 : String) : Option NetworkConfig :=
  if caip2 == ALGORAND_MAINNET_CAIP2 then
    some ⟨MAINNET_GENESIS_HASH, "mainnet-v1.0", USDC_MAINNET_ASA_ID, "USDC", 6⟩
  else if caip2 == ALGORAND_TESTNET_CAIP2 then
    some ⟨TESTNET_GENESIS_HASH, "testnet-v1.0", USDC_TESTNET_ASA_ID, "USDC", 6⟩
  else none

/-! ### Network utilities (utils.py) -/

/-- `normalize_network`: CAIP-2 identifiers must appear in `NETWORK_CONFIGS`,
V1 names go through `V1_TO_V2_NETWORK_MAP`; anything else raises. -/
def normalize_network (network : String) : Except String String :=
  if strBeginsWith network "algorand:" then
    if (NETWORK_CONFIGS network).isSome then .ok network
    else .error ("Unsupported CAIP-2 network: " ++ network)
  else
    match dictGet V1_TO_V2_NETWORK_MAP network with
    | some v2 => .ok v2
    | none => .error ("Unsupported network: " ++ network)

/-- `get_network_config`: normalize, then look up; missing config raises. -/
def get_network_config (network : String) : Except String NetworkConfig :=
  match normalize_network network with
  | .error e => .error e
  | .ok caip2 =>
    match NETWORK_CONFIGS caip2 with
    | some c => .ok c
    | none => .error ("Unsupported network: " ++ network)

/-- `get_genesis_hash`. -/
def get_genesis_hash (network : String) : Except String String :=
  (get_network_config network).map (fun c => c.genesis_hash)

/-- `get_usdc_asa_id`. -/
def get_usdc_asa_id (network : String) : Except String Int :=
  match normalize_network network with
  | .error e => .error e
  | .ok caip2 =>
    match NETWORK_CONFIGS caip2 with
    | some c => .ok c.asa_id
    | none => .error ("Unsupported network: " ++ network)

/-! ### Decoded transactions (types.py / utils.py) -/

/-- `DecodedTransactionInfo` from types.py: the normalized view of a decoded
Algorand transaction.  Optional fields default to `none` exactly as the
Python dataclass defaults them to `None`. -/
structure DecodedTransactionInfo where
  type : String
  sender : String
  fee : Int
  first_valid : Int := 0
  last_valid : Int := 0
  genesis_hash : String
  genesis_id : Option String := none
  group : Option String := none
  is_signed : Bool := false
  note : Option String := none
  receiver : Option String := none
  amount : Option Int := none
  close_remainder_to : Option String := none
  asset_index : Option Int := none
  asset_receiver : Option String := none
  asset_amount : Option Int := none
  asset_close_to : Option String := none
  rekey_to : Option String := none
deriving DecidableEq, Inhabited

/-- `ExactAvmPayload` from types.py. -/
structure ExactAvmPayload where
  payment_group : List String := []
  payment_index : Int := 0
deriving DecidableEq, Inhabited

/-- `is_blocked_transaction_type`. -/
def is_blocked_transaction_type (txn_type : String) : Bool :=
  BLOCKED_TXN_TYPES.contains txn_type

/-- `validate_no_security_risks`: rekey, close-to and blocked txn types. -/
def validate_no_security_risks (t : DecodedTransactionInfo) : Option String :=
  if truthyStr t.rekey_to then some ERR_REKEY_DETECTED
  else if t.type == TXN_TYPE_PAYMENT && truthyStr t.close_remainder_to then
    some ERR_CLOSE_TO_DETECTED
  else if t.type == TXN_TYPE_ASSET_TRANSFER && truthyStr t.asset_close_to then
    some ERR_CLOSE_TO_DETECTED
  else if is_blocked_transaction_type t.type then some ERR_BLOCKED_TXN_TYPE
  else none

/-- `validate_fee_payer_transaction`: type, self-payment, zero amount, no
close-to, no rekey.  Note that the function performs no check on `fee`. -/
def validate_fee_payer_transaction (t : DecodedTransactionInfo)
    (expected_fee_payer : String) : Option String :=
  if !(t.type == TXN_TYPE_PAYMENT) then some ERR_FEE_PAYER_INVALID_TXN
  else if !(t.sender == expected_fee_payer) then some ERR_FEE_PAYER_INVALID_TXN
  else if !(t.receiver == some expected_fee_payer) then some ERR_FEE_PAYER_INVALID_TXN
  else if truthyInt t.amount && (t.amount.getD 0) > 0 then some ERR_FEE_PAYER_HAS_AMOUNT
  else if truthyStr t.close_remainder_to then some ERR_FEE_PAYER_HAS_CLOSE
  else if truthyStr t.rekey_to then some ERR_FEE_PAYER_HAS_REKEY
  else none

/-- The verify loop over `validate_no_security_risks`: the first transaction
with a security error decides the returned reason. -/
def firstSecurityError : List DecodedTransactionInfo → Option String
  | [] => none
  | t :: ts =>
    match validate_no_security_risks t with
    | some e => some e
    | none => firstSecurityError ts

/-! ### Facilitator data model (schemas, facilitator.py) -/

/-- The fields of `PaymentRequirements` read by the AVM facilitator. -/
structure PaymentRequirements where
  scheme : String
  network : String
  amount : String
  pay_to : String
  asset : String
  extra : Option (List (String × String)) := none
deriving DecidableEq, Inhabited

/-- The fields of the `accepted` requirements read by `verify`. -/
structure AcceptedInfo where
  scheme : String
  network : String
deriving DecidableEq, Inhabited

/-- The fields of `PaymentPayload` read by the AVM facilitator; the inner
scheme blob is given in its parsed `ExactAvmPayload.from_dict` form. -/
structure PaymentPayload where
  accepted : AcceptedInfo
  payload : ExactAvmPayload
deriving DecidableEq, Inhabited

/-- `VerifyResponse`. -/
structure VerifyResponse where
  is_valid : Bool
  payer : String
  invalid_reason : Option String := none
  invalid_message : Option String := none
deriving DecidableEq, Inhabited

/-- `SettleResponse`. -/
structure SettleResponse where
  success : Bool
  transaction : String
  network : String
  payer : String
  error_reason : Option String := none
  error_message : Option String := none
deriving DecidableEq, Inhabited

/-- The facilitator's external collaborators: the algosdk msgpack decoder
(`decode_base64_transaction`) and the `FacilitatorAvmSigner` capability.
Group bytes are represented by the base64 strings they decode from, and a
Python exception raised by a collaborator is an `Except.error`. -/
structure FacilitatorEnv where
  decode : String → Except String DecodedTransactionInfo
  signer_addresses : List String
  sign_group : List String → String → List Nat → String → Except String (List String)
  simulate_group : List String → String → Except String Unit
  send_group : List String → String → Except String String
  confirm_transaction : String → String → Except String Unit

/-- A failing `VerifyResponse` (is_valid false, optional message). -/
def vFail (reason : String) (payer : String) (msg : Option String := none) :
    VerifyResponse :=
  { is_valid := false, payer := payer, invalid_reason := some reason,
    invalid_message := msg }

/-! ### `ExactAvmScheme.verify` (exact/facilitator.py), staged by source step -/

/-- Step 9 of `verify`: sign the fee-payer transaction if present, simulate,
and map any raised exception to `transaction_simulation_failed`. -/
def verify_step9 (env : FacilitatorEnv) (payment_group : List String)
    (caip2_network : String) (fee_payer : Option (String × Nat))
    (payer : String) : Except String VerifyResponse :=
  let attempt : Except String Unit :=
    match fee_payer with
    | some (fp, i) =>
      match env.sign_group payment_group fp [i] caip2_network with
      | .error e => .error e
      | .ok gb => env.simulate_group gb caip2_network
    | none => env.simulate_group payment_group caip2_network
  match attempt with
  | .error e => .ok (vFail ERR_SIMULATION_FAILED payer (some e))
  | .ok _ => .ok { is_valid := true, payer := payer }

/-- Step 8 of `verify`: the self-custody guard and, when
`requirements.extra.feePayer` is truthy, the fee-payer checks. -/
def verify_step8 (env : FacilitatorEnv) (avm : ExactAvmPayload)
    (requirements : PaymentRequirements) (caip2_network : String)
    (decoded_txns : List DecodedTransactionInfo)
    (payment_txn : DecodedTransactionInfo) (payer : String) :
    Except String VerifyResponse :=
  let fee_payer_str := (dictGet (requirements.extra.getD []) "feePayer").getD ""
  if env.signer_addresses.contains payment_txn.sender then
    .ok (vFail ERR_FEE_PAYER_TRANSFERRING payer)
  else if !(fee_payer_str == "") then
    if !(env.signer_addresses.contains fee_payer_str) then
      .ok (vFail ERR_FEE_PAYER_NOT_MANAGED payer)
    else
      match decoded_txns.findIdx? (fun t => t.sender == fee_payer_str) with
      | none => .ok (vFail ERR_FEE_PAYER_MISSING payer)
      | some i =>
        let fee_payer_txn := (decoded_txns.get? i).getD default
        match validate_fee_payer_transaction fee_payer_txn fee_payer_str with
        | some e => .ok (vFail e payer)
        | none =>
          verify_step9 env avm.payment_group caip2_network
            (some (fee_payer_str, i)) payer
  else
    verify_step9 env avm.payment_group caip2_network none payer

/-- The transaction at `paymentIndex` (the index is within bounds on every
path on which this is read, so the default is never produced). -/
def paymentTxnOf (decoded_txns : List DecodedTransactionInfo) (idx : Int) :
    DecodedTransactionInfo :=
  (decoded_txns.get? idx.toNat).getD default

/-- Step 7 of `verify`: checks on the transaction at `paymentIndex`. -/
def verify_step7 (env : FacilitatorEnv) (avm : ExactAvmPayload)
    (requirements : PaymentRequirements) (caip2_network : String)
    (decoded_txns : List DecodedTransactionInfo) :
    Except String VerifyResponse :=
  let payment_txn := paymentTxnOf decoded_txns avm.payment_index
  let payer := payment_txn.sender
  if !(payment_txn.type == TXN_TYPE_ASSET_TRANSFER) then
    .ok (vFail ERR_INVALID_ASSET_ID payer
      (some "Payment transaction must be asset transfer (axfer)"))
  else
    match str_to_int requirements.asset with
    | .error e => .error e
    | .ok required_asset =>
      if !(payment_txn.asset_index == some required_asset) then
        .ok (vFail ERR_INVALID_ASSET_ID payer)
      else if !(payment_txn.asset_receiver == some requirements.pay_to) then
        .ok (vFail ERR_RECIPIENT_MISMATCH payer)
      else
        match str_to_int requirements.amount with
        | .error e => .error e
        | .ok required_amount =>
          if payment_txn.asset_amount.getD 0 < required_amount then
            .ok (vFail ERR_AMOUNT_INSUFFICIENT payer)
          else if !payment_txn.is_signed then
            .ok (vFail ERR_MISSING_SIGNATURE payer)
          else
            verify_step8 env avm requirements caip2_network decoded_txns
              payment_txn payer

/-- Steps 4-6 of `verify`: group-id cohesion, genesis-hash binding and the
security pass over every decoded transaction. -/
def verify_step4 (env : FacilitatorEnv) (avm : ExactAvmPayload)
    (requirements : PaymentRequirements) (caip2_network : String)
    (decoded_txns : List DecodedTransactionInfo) :
    Except String VerifyResponse :=
  let first_group_id := ((decoded_txns.get? 0).getD default).group
  if 1 < decoded_txns.length && !(truthyStr first_group_id) then
    .ok (vFail ERR_MISSING_GROUP_ID "")
  else if 1 < decoded_txns.length
      && decoded_txns.tail.any (fun t => !(t.group == first_group_id)) then
    .ok (vFail ERR_INVALID_GROUP_ID "")
  else
    match get_genesis_hash caip2_network with
    | .error e => .error e
    | .ok expected_genesis_hash =>
      if decoded_txns.any (fun t => !(t.genesis_hash == expected_genesis_hash)) then
        .ok (vFail ERR_GENESIS_HASH_MISMATCH "")
      else
        match firstSecurityError decoded_txns with
        | some e => .ok (vFail e "")
        | none => verify_step7 env avm requirements caip2_network decoded_txns

/-- Steps 2-3 of `verify`: group-size bounds, payment index bound, and the
decode loop (decode failures are caught and reported). -/
def verify_step2 (env : FacilitatorEnv) (avm : ExactAvmPayload)
    (requirements : PaymentRequirements) (caip2_network : String) :
    Except String VerifyResponse :=
  if avm.payment_group.isEmpty then .ok (vFail ERR_EMPTY_GROUP "")
  else if MAX_GROUP_SIZE < avm.payment_group.length then
    .ok (vFail ERR_GROUP_TOO_LARGE "")
  else if avm.payment_index < 0
      || (avm.payment_group.length : Int) ≤ avm.payment_index then
    .ok (vFail ERR_INVALID_PAYMENT_INDEX "")
  else
    match mapExcept env.decode avm.payment_group with
    | .error e => .ok (vFail ERR_GROUP_DECODE_FAILED "" (some e))
    | .ok decoded_txns =>
      verify_step4 env avm requirements caip2_network decoded_txns

/-- `ExactAvmScheme.verify`.  `normalize_network` is called before any check
and an unsupported `requirements.network` raises out of `verify`. -/
def verify (env : FacilitatorEnv) (payload : PaymentPayload)
    (requirements : PaymentRequirements) : Except String VerifyResponse :=
  match normalize_network requirements.network with
  | .error e => .error e
  | .ok caip2_network =>
    if !(payload.accepted.scheme == SCHEME_EXACT)
        || !(requirements.scheme == SCHEME_EXACT) then
      .ok (vFail ERR_UNSUPPORTED_SCHEME "")
    else if !(payload.accepted.network == requirements.network) then
      .ok (vFail ERR_NETWORK_MISMATCH "")
    else
      verify_step2 env payload.payload requirements caip2_network

/-! ### `ExactAvmScheme.settle` (exact/facilitator.py) -/

/-- The `try` block of `settle`: re-sign the fee-payer transaction when
`requirements.extra.feePayer` is truthy, send the group and wait for
confirmation.  Any raised exception yields a `transaction_failed` response
whose `transaction` field holds the txid assigned so far (empty until
`send_group` succeeds). -/
def settle_submit (env : FacilitatorEnv) (avm : ExactAvmPayload)
    (requirements : PaymentRequirements) (caip2_network network payer : String) :
    SettleResponse :=
  let fee_payer_str := (dictGet (requirements.extra.getD []) "feePayer").getD ""
  let signed : Except String (List String) :=
    if !(fee_payer_str == "") then
      match mapExcept env.decode avm.payment_group with
      | .error e => .error e
      | .ok decoded_txns =>
        match decoded_txns.findIdx? (fun t => t.sender == fee_payer_str) with
        | some i => env.sign_group avm.payment_group fee_payer_str [i] caip2_network
        | none => .ok avm.payment_group
    else .ok avm.payment_group
  match signed with
  | .error e =>
    { success := false, transaction := "", network := network, payer := payer,
      error_reason := some ERR_TRANSACTION_FAILED, error_message := some e }
  | .ok group_bytes =>
    match env.send_group group_bytes caip2_network with
    | .error e =>
      { success := false, transaction := "", network := network, payer := payer,
        error_reason := some ERR_TRANSACTION_FAILED, error_message := some e }
    | .ok txid =>
      match env.confirm_transaction txid caip2_network with
      | .error e =>
        { success := false, transaction := txid, network := network,
          payer := payer, error_reason := some ERR_TRANSACTION_FAILED,
          error_message := some e }
      | .ok _ =>
        { success := true, transaction := txid, network := network,
          payer := payer }

/-- `ExactAvmScheme.settle`: normalize the payload's network, re-run
`verify` and refuse on failure, then submit. -/
def settle (env : FacilitatorEnv) (payload : PaymentPayload)
    (requirements : PaymentRequirements) : Except String SettleResponse :=
  let network := payload.accepted.network
  match normalize_network network with
  | .error e => .error e
  | .ok caip2_network =>
    match verify env payload requirements with
    | .error e => .error e
    | .ok verify_result =>
      if !verify_result.is_valid then
        .ok { success := false, transaction := "", network := network,
              payer := verify_result.payer,
              error_reason := verify_result.invalid_reason,
              error_message := verify_result.invalid_message }
      else
        .ok (settle_submit env payload.payload requirements caip2_network
          network verify_result.payer)

/-! ### `get_extra` and `get_signers` (exact/facilitator.py) -/

/-- `ExactAvmScheme.get_extra`: `None` when the signer manages no addresses,
otherwise an extra dict carrying one managed address as `feePayer`.
`random.choice(addresses)` returns `addresses[i]` for an index `i` drawn
uniformly below the length; the draw is modelled by the parameter
`rand : Nat`, reduced modulo the length. -/
def get_extra (env : FacilitatorEnv) (rand : Nat) (_network : String) :
    Option (List (String × String)) :=
  let addresses := env.signer_addresses
  if addresses.isEmpty then none
  else some [("feePayer", (addresses.get? (rand % addresses.length)).getD "")]

/-- `ExactAvmScheme.get_signers`. -/
def get_signers (env : FacilitatorEnv) (_network : String) : List String :=
  env.signer_addresses

/-! ### Money parsing (utils.py, exact/server.py)

`parse_money_to_decimal` returns a Python float and
`to_atomic_amount` re-reads it through `Decimal(str(amount))`.  For decimal
literals of at most 15 significant digits this float round-trip is
value-preserving (`str` prints the shortest representation, which is the
original literal), so the embedding works with exact rationals. -/

/-- The mantissa part of a decimal literal: optional sign, digits, optional
fractional digits after one dot; at least one digit overall.  The result is
the pair of an integer `m` and a power-of-ten scale `e`, denoting
`m * 10 ^ e`. -/
def parse_mantissa (m : List Char) : Option (Int × Int) :=
  let core := if charsBeginWith m ['-'] || charsBeginWith m ['+'] then m.drop 1 else m
  let sign : Int := if charsBeginWith m ['-'] then -1 else 1
  match splitOnChar '.' core with
  | [ip] =>
    if ip.length > 0 && ip.all Char.isDigit then
      some (sign * (digitsVal ip : Int), 0)
    else none
  | [ip, fp] =>
    if (ip ++ fp).length > 0 && ip.all Char.isDigit && fp.all Char.isDigit then
      some (sign * (digitsVal (ip ++ fp) : Int), -(fp.length : Int))
    else none
  | _ => none

/-- A decimal literal as accepted by `Decimal(...)` for the inputs arising
here, as a scaled integer: mantissa with optional `e`/`E` exponent. -/
def parse_decimal_parts (l : List Char) : Option (Int × Int) :=
  let low := l.map (fun c => if c == 'E' then 'e' else c)
  match splitOnChar 'e' low with
  | [m] => parse_mantissa m
  | [m, ex] =>
    match intFromChars ex, parse_mantissa m with
    | some k, some (mv, me) => some (mv, me + k)
    | _, _ => none
  | _ => none

/-- The rational value `m * 10 ^ e` of a scaled integer. -/
def decimal_value (m e : Int) : Rat :=
  (m : Rat) * (10 : Rat) ^ e

/-- A decimal literal as an exact rational. -/
def parse_decimal (s : String) : Except String Rat :=
  match parse_decimal_parts s.data with
  | some (m, e) => .ok (decimal_value m e)
  | none => .error ("invalid decimal literal: " ++ s)

/-- `parse_money_to_decimal` on a string: strip whitespace, strip leading
currency sigils, drop thousands separators, read as a decimal. -/
def parse_money_to_decimal (money : String) : Except String Rat :=
  parse_decimal (String.mk
    (((trimChars money.data).dropWhile (fun c => c == '$')).filter
      (fun c => !(c == ','))))

/-- Python `int(...)` on an exact decimal value: truncation toward zero. -/
def int_trunc (q : Rat) : Int :=
  if q < 0 then -(Int.floor (-q)) else Int.floor q

/-- `to_atomic_amount`: `int(Decimal(str(amount)) * Decimal(10 ** decimals))`. -/
def to_atomic_amount (amount : Rat) (decimals : Nat) : Int :=
  int_trunc (amount * ((10 : Rat) ^ decimals))

/-- `AssetAmount` as produced by the AVM server role; `extra` maps keys to
integers (only `decimals` is ever set). -/
structure AssetAmount where
  amount : String
  asset : String
  extra : List (String × Int)
deriving DecidableEq, Inhabited

/-- A `Price` argument of `parse_price`: either a scalar money value (str,
float and int scalars all reach `parse_money_to_decimal`; the scalar is
given in its decimal-string form) or an already-assembled asset amount
(the dict and `AssetAmount`-object branches of the source coincide on the
fields modelled here). -/
inductive Price where
  | money (s : String)
  | assetDict (amount : String) (asset : Option String)
      (extra : Option (List (String × Int)))
deriving DecidableEq

/-- A registered money parser: called on the decimal amount and network. -/
abbrev MoneyParser := Rat → String → Option AssetAmount

/-- `ExactAvmScheme._default_money_conversion` (exact/server.py). -/
def default_money_conversion (amount : Rat) (network : String) :
    Except String AssetAmount :=
  match get_usdc_asa_id network with
  | .error e => .error e
  | .ok asa_id =>
    .ok { amount := toString (to_atomic_amount amount DEFAULT_DECIMALS),
          asset := toString asa_id,
          extra := [("decimals", (DEFAULT_DECIMALS : Int))] }

/-- The money-parser chain: first parser returning a value wins, the
default USDC conversion closes the chain. -/
def run_money_parsers : List MoneyParser → Rat → String → Except String AssetAmount
  | [], q, network => default_money_conversion q network
  | p :: ps, q, network =>
    match p q network with
    | some r => .ok r
    | none => run_money_parsers ps q network

/-- `ExactAvmScheme.parse_price` (exact/server.py).  In the dict branch the
source evaluates the default `str(get_usdc_asa_id(network))` eagerly, so an
unsupported network raises there even when `asset` is present. -/
def parse_price (parsers : List MoneyParser) (price : Price)
    (network : String) : Except String AssetAmount :=
  match price with
  | .assetDict amount asset extra =>
    match get_usdc_asa_id network with
    | .error e => .error e
    | .ok asa_id =>
      .ok { amount := amount, asset := asset.getD (toString asa_id),
            extra := extra.getD [("decimals", (DEFAULT_DECIMALS : Int))] }
  | .money s =>
    match parse_money_to_decimal s with
    | .error e => .error e
    | .ok decimal_amount => run_money_parsers parsers decimal_amount network

/-! ### `ExactAvmScheme.create_payment_payload` (exact/client.py) -/

/-- The fields of algosdk `SuggestedParams` read by the client. -/
structure SuggestedParams where
  fee : Int
  min_fee : Option Int
  first : Int
  last : Int
  gh : String
  gen : Option String
  flat_fee : Bool
deriving DecidableEq, Inhabited

/-- An Algorand transaction as constructed by the client through algosdk. -/
structure BuiltTxn where
  type : String
  sender : String
  fee : Int
  flat_fee : Bool
  first : Int
  last : Int
  gh : String
  gen : Option String
  note : Option String := none
  receiver : Option String := none
  amt : Option Int := none
  asset_receiver : Option String := none
  asset_amt : Option Int := none
  asset_index : Option Int := none
  group : Option String := none
deriving DecidableEq, Inhabited

/-- A Python value at the client's serialization boundary, tagged with its
runtime type: algosdk `msgpack_encode` returns a base64 `str`, while the
signer protocol and `base64.b64encode` deal in `bytes`.  The distinction
matters because client.py declares `unsigned_bytes_list: list[bytes]` but
fills it with the `str` values `msgpack_encode` returns, without the
`base64.b64decode` conversion every other call site in the repository
applies (signers.py, the integration test's signer). -/
inductive PyBlob where
  | bytes (data : String)
  | str (data : String)
deriving DecidableEq, Inhabited

/-- Python truthiness of a signer result entry: `None`, `b""` and `""` are
falsy. -/
def pyBlobTruthy : Option PyBlob → Bool
  | none => false
  | some (.bytes b) => !(b == "")
  | some (.str s) => !(s == "")

/-- algosdk `encoding.encode_address` applied to the value client.py:189
reads from `txn.sender`.  algosdk stores the sender as the 58-character
address STRING, while `encode_address` expects 32 raw key bytes (every
other call in this repository passes key-byte slices such as
`secret_key[32:]`): an empty value is returned unchanged (`if not
addr_bytes: return addr_bytes`), any other length raises
`WrongKeyBytesLengthError`, and even a 32-character string raises when the
checksum hash is applied to a str.  So the call raises for every nonempty
sender. -/
def encode_address_py (addr : String) : Except String String :=
  if addr == "" then .ok addr
  else if !(addr.length == 32) then .error "WrongKeyBytesLengthError"
  else .error "TypeError: Strings must be encoded before hashing"

/-- `base64.b64encode(...).decode("utf-8")` as used at client.py:208/211:
defined on bytes (encoded by the external oracle `b64encodeBytes`), a
`TypeError` on str. -/
def b64encode_py (b64encodeBytes : String → String) : PyBlob → Except String String
  | .bytes b => .ok (b64encodeBytes b)
  | .str _ => .error "TypeError: a bytes-like object is required, not str"

/-- The list comprehension at client.py:186-190: for every transaction,
`encode_address(txn.sender)` is compared with the client's address; the
first raising call aborts the whole comprehension. -/
def client_indexes_py (address : String) : Nat → List BuiltTxn → Except String (List Nat)
  | _, [] => .ok []
  | i, t :: ts =>
    match encode_address_py t.sender with
    | .error e => .error e
    | .ok enc =>
      match client_indexes_py address (i + 1) ts with
      | .error e => .error e
      | .ok rest => .ok (if enc == address then i :: rest else rest)

/-- The loop at client.py:203-211: entry `i` of the payment group is the
base64 encoding of the signer's result when that result is truthy, else of
the unsigned entry (`signed_results[i]` raises `IndexError` when the
signer returned a short list; `base64.b64encode` raises `TypeError` on
the str-typed unsigned entries). -/
def build_payment_group (b64encodeBytes : String → String)
    (signed_results : List (Option PyBlob)) :
    Nat → List PyBlob → Except String (List String)
  | _, [] => .ok []
  | i, blob :: rest =>
    match signed_results.get? i with
    | none => .error "IndexError: list index out of range"
    | some signedEntry =>
      let chosen : PyBlob :=
        if pyBlobTruthy signedEntry then signedEntry.getD (.str "") else blob
      match b64encode_py b64encodeBytes chosen with
      | .error e => .error e
      | .ok s =>
        match build_payment_group b64encodeBytes signed_results (i + 1) rest with
        | .error e => .error e
        | .ok ss => .ok (s :: ss)

/-- The client's external collaborators: its address, the chain's suggested
parameters, the algosdk size-based fee computed when `flat_fee` is unset,
`assign_group_id`'s group hash, algosdk `msgpack_encode` (which returns a
base64 str), the integrator's `sign_transactions` capability, and the
base64 alphabet encoding of an opaque bytes value. -/
structure ClientEnv where
  address : String
  suggestedParams : SuggestedParams
  sizeFee : SuggestedParams → Int
  groupId : List BuiltTxn → String
  msgpackEncode : BuiltTxn → String
  signTransactions : List PyBlob → List Nat → List (Option PyBlob)
  b64encodeBytes : String → String

/-- The fee algosdk assigns at construction: taken as-is under `flat_fee`,
otherwise computed from the encoded size (external, `ClientEnv.sizeFee`). -/
def algosdkFee (env : ClientEnv) (sp : SuggestedParams) : Int :=
  if sp.flat_fee then sp.fee else env.sizeFee sp

/-- `create_payment_payload`: the payment group as base64 strings plus the
payment index, or the first raised exception.  The transaction
construction (client.py:110-182) is followed by the client-index
comprehension (186-190, which applies `encode_address` to each sender),
the msgpack serialization (193-197, producing str values in a
bytes-declared list), the signer call, and the base64 assembly of the
group (203-211). -/
def create_payment_payload (env : ClientEnv)
    (requirements : PaymentRequirements) :
    Except String (List String × Int) :=
  match normalize_network requirements.network with
  | .error e => .error e
  | .ok _ =>
    let sp := env.suggestedParams
    let fee_payer := (dictGet (requirements.extra.getD []) "feePayer").getD ""
    -- fee-abstraction mode builds the fee-payer txn and a zero-fee flat sp;
    -- normal mode reuses the chain's suggested params
    let min_fee : Int := if truthyInt sp.min_fee then sp.min_fee.getD 0 else 1000
    let pooled_fee := min_fee * 2
    let fee_payer_sp : SuggestedParams :=
      { fee := pooled_fee, flat_fee := true, first := sp.first, last := sp.last,
        gh := sp.gh, gen := sp.gen, min_fee := sp.min_fee }
    let fee_payer_txn : BuiltTxn :=
      { type := TXN_TYPE_PAYMENT, sender := fee_payer,
        fee := algosdkFee env fee_payer_sp, flat_fee := true,
        first := sp.first, last := sp.last, gh := sp.gh, gen := sp.gen,
        receiver := some fee_payer, amt := some 0,
        note := some "x402-fee-payer" }
    let asset_sp : SuggestedParams :=
      if !(fee_payer == "") then
        { fee := 0, flat_fee := true, first := sp.first, last := sp.last,
          gh := sp.gh, gen := sp.gen, min_fee := sp.min_fee }
      else sp
    match str_to_int requirements.amount with
    | .error e => .error e
    | .ok amt =>
      match str_to_int requirements.asset with
      | .error e => .error e
      | .ok asset_id =>
        let asa_transfer : BuiltTxn :=
          { type := TXN_TYPE_ASSET_TRANSFER, sender := env.address,
            fee := algosdkFee env asset_sp, flat_fee := asset_sp.flat_fee,
            first := sp.first, last := sp.last, gh := sp.gh, gen := sp.gen,
            asset_receiver := some requirements.pay_to, asset_amt := some amt,
            asset_index := some asset_id, note := some "x402-payment" }
        let transactions :=
          if !(fee_payer == "") then [fee_payer_txn, asa_transfer]
          else [asa_transfer]
        let payment_index : Int := if !(fee_payer == "") then 1 else 0
        let grouped :=
          if 1 < transactions.length then
            let gid := env.groupId transactions
            transactions.map (fun t => { t with group := some gid })
          else transactions
        match client_indexes_py env.address 0 grouped with
        | .error e => .error e
        | .ok client_indexes =>
          let unsigned_list := grouped.map
            (fun t => PyBlob.str (env.msgpackEncode t))
          let signed_results := env.signTransactions unsigned_list client_indexes
          match build_payment_group env.b64encodeBytes signed_results 0
              unsigned_list with
          | .error e => .error e
          | .ok payment_group => .ok (payment_group, payment_index)

/-! ### V1 bridge (exact/v1/facilitator.py) -/

/-- The keys of a V1 request dict read by the bridge.  `maxTimeoutSeconds`
and `resource` are copied into fields the V2 verifier never reads and are
omitted.  `payloadInner` is the `payload` entry in its parsed
`ExactAvmPayload.from_dict` form (defaulting to the empty dict). -/
structure V1Dict where
  scheme : Option String := none
  network : Option String := none
  maxAmountRequired : Option String := none
  payTo : Option String := none
  asset : Option String := none
  extra : Option (List (String × String)) := none
  payloadInner : Option ExactAvmPayload := none
deriving DecidableEq, Inhabited

/-- The camelCase dict returned by `ExactAvmSchemeV1.verify`. -/
structure V1VerifyResponse where
  isValid : Bool
  invalidReason : Option String
  payer : String
deriving DecidableEq, Inhabited

/-- The camelCase dict returned by `ExactAvmSchemeV1.settle`. -/
structure V1SettleResponse where
  success : Bool
  errorReason : Option String
  transaction : String
  network : String
  payer : String
deriving DecidableEq, Inhabited

/-- `ExactAvmSchemeV1.verify`: translate the V1 dicts into V2 typed values,
dispatch to the V2 scheme, flatten the response. -/
def verifyV1 (env : FacilitatorEnv) (payload : V1Dict)
    (payment_requirements : V1Dict) : Except String V1VerifyResponse :=
  let v1_network := payment_requirements.network.getD ""
  let v2_network := (dictGet V1_TO_V2_NETWORK_MAP v1_network).getD v1_network
  let v2_requirements : PaymentRequirements :=
    { scheme := payment_requirements.scheme.getD "exact",
      network := v2_network,
      amount := payment_requirements.maxAmountRequired.getD "0",
      pay_to := payment_requirements.payTo.getD "",
      asset := payment_requirements.asset.getD "",
      extra := payment_requirements.extra }
  let v2_payload : PaymentPayload :=
    { accepted := { scheme := payload.scheme.getD "exact",
                    network := v2_network },
      payload := payload.payloadInner.getD {} }
  match verify env v2_payload v2_requirements with
  | .error e => .error e
  | .ok result =>
    .ok { isValid := result.is_valid, invalidReason := result.invalid_reason,
          payer := result.payer }

/-- `ExactAvmSchemeV1.settle`: translate, dispatch to the V2 scheme, map the
response network back through the V2-to-V1 table, flatten. -/
def settleV1 (env : FacilitatorEnv) (payload : V1Dict)
    (payment_requirements : V1Dict) : Except String V1SettleResponse :=
  let v1_network := payment_requirements.network.getD ""
  let v2_network := (dictGet V1_TO_V2_NETWORK_MAP v1_network).getD v1_network
  let v2_requirements : PaymentRequirements :=
    { scheme := payment_requirements.scheme.getD "exact",
      network := v2_network,
      amount := payment_requirements.maxAmountRequired.getD "0",
      pay_to := payment_requirements.payTo.getD "",
      asset := payment_requirements.asset.getD "",
      extra := payment_requirements.extra }
  let v2_payload : PaymentPayload :=
    { accepted := { scheme := payload.scheme.getD "exact",
                    network := v2_network },
      payload := payload.payloadInner.getD {} }
  match settle env v2_payload v2_requirements with
  | .error e => .error e
  | .ok result =>
    .ok { success := result.success, errorReason := result.error_reason,
          transaction := result.transaction,
          network := (dictGet V2_TO_V1_NETWORK_MAP result.network).getD
            result.network,
          payer := result.payer }

/-! Spec-side translation, written from the spec's words ("map
`maxAmountRequired` to `amount`, `network` through the V1-to-V2 table,
dispatch to the V2 handler, map the response network through the V2-to-V1
table, flatten to camelCase"), to be compared with the bridge above. -/

/-- Spec-side network translation: a V1 name is looked up in the V1-to-V2
table; a name outside the table passes through unchanged. -/
def specTranslateNetwork (network : String) : String :=
  (dictGet V1_TO_V2_NETWORK_MAP network).getD network

/-- Spec-side input translation of the V1 requirements dict: the
`maxAmountRequired` field becomes `amount`, the network is translated, and
the remaining fields carry over with the V1 defaults. -/
def specTranslateRequirements (d : V1Dict) : PaymentRequirements :=
  { scheme := d.scheme.getD "exact",
    network := specTranslateNetwork (d.network.getD ""),
    amount := d.maxAmountRequired.getD "0",
    pay_to := d.payTo.getD "",
    asset := d.asset.getD "",
    extra := d.extra }

/-- Spec-side input translation of the V1 payload dict: the accepted option
carries the payload's scheme and the translated network of the
requirements dict; the inner blob carries over. -/
def specTranslatePayload (payload : V1Dict) (payment_requirements : V1Dict) :
    PaymentPayload :=
  { accepted := { scheme := payload.scheme.getD "exact",
                  network := specTranslateNetwork
                    (payment_requirements.network.getD "") },
    payload := payload.payloadInner.getD {} }

/-- Spec-side output flattening of a verify verdict. -/
def specFlattenVerify (r : VerifyResponse) : V1VerifyResponse :=
  { isValid := r.is_valid, invalidReason := r.invalid_reason,
    payer := r.payer }

/-- Spec-side output flattening of a settle verdict: the network is mapped
back through the V2-to-V1 table. -/
def specFlattenSettle (r : SettleResponse) : V1SettleResponse :=
  { success := r.success, errorReason := r.error_reason,
    transaction := r.transaction,
    network := (dictGet V2_TO_V1_NETWORK_MAP r.network).getD r.network,
    payer := r.payer }

/-! ### Concrete fixtures

Concrete environments, payloads and requirements used to instantiate the
theorems below.  The decode oracle maps each opaque group entry (standing
for a base64 msgpack blob) to its decoded transaction; the chain oracles
answer successfully. -/

def feePayerAddr : String := "FEEPAYER"
def clientAddr : String := "CLIENT"
def payToAddr : String := "PAYTO"

/-- An environment with successful chain oracles. -/
def mkEnv (decode : String → Except String DecodedTransactionInfo)
    (addrs : List String) : FacilitatorEnv :=
  { decode := decode, signer_addresses := addrs,
    sign_group := fun g _ _ _ => .ok g,
    simulate_group := fun _ _ => .ok (),
    send_group := fun _ _ => .ok "TXID",
    confirm_transaction := fun _ _ => .ok () }

/-- A fee-payer transaction carrying a fee of 1,000,000 microalgos, far
above `MAX_REASONABLE_FEE`. -/
def feeTxnBig : DecodedTransactionInfo :=
  { type := "pay", sender := feePayerAddr, fee := 1000000,
    genesis_hash := TESTNET_GENESIS_HASH, group := some "gid",
    receiver := some feePayerAddr, amount := some 0, is_signed := false }

/-- A well-formed signed payment transaction inside a two-txn group. -/
def axferTxn : DecodedTransactionInfo :=
  { type := "axfer", sender := clientAddr, fee := 0,
    genesis_hash := TESTNET_GENESIS_HASH, group := some "gid",
    asset_index := some 10458941, asset_receiver := some payToAddr,
    asset_amount := some 1000, is_signed := true }

/-- A well-formed signed payment transaction standing alone. -/
def axferSolo : DecodedTransactionInfo :=
  { type := "axfer", sender := clientAddr, fee := 1000,
    genesis_hash := TESTNET_GENESIS_HASH,
    asset_index := some 10458941, asset_receiver := some payToAddr,
    asset_amount := some 1000, is_signed := true }

/-- A payment transaction whose sender is facilitator-managed. -/
def axferManaged : DecodedTransactionInfo :=
  { axferSolo with sender := feePayerAddr }

/-- A payment transaction short of the required amount by one. -/
def axferShort : DecodedTransactionInfo :=
  { axferSolo with asset_amount := some 999 }

/-- A payment transaction carrying a rekey. -/
def axferRekeyed : DecodedTransactionInfo :=
  { axferSolo with rekey_to := some "EVIL" }

def envC1 : FacilitatorEnv :=
  mkEnv (fun s => if s == "fp" then .ok feeTxnBig
    else if s == "pay" then .ok axferTxn else .error "bad") [feePayerAddr]

def envSolo : FacilitatorEnv :=
  mkEnv (fun s => if s == "pay" then .ok axferSolo else .error "bad")
    [feePayerAddr]

def envManaged : FacilitatorEnv :=
  mkEnv (fun s => if s == "mpay" then .ok axferManaged else .error "bad")
    [feePayerAddr]

def envShort : FacilitatorEnv :=
  mkEnv (fun s => if s == "spay" then .ok axferShort else .error "bad")
    [feePayerAddr]

def envRekeyed : FacilitatorEnv :=
  mkEnv (fun s => if s == "rk" then .ok axferRekeyed else .error "bad")
    [feePayerAddr]

/-- Requirements with fee abstraction on testnet. -/
def reqStd : PaymentRequirements :=
  { scheme := "exact", network := ALGORAND_TESTNET_CAIP2, amount := "1000",
    pay_to := payToAddr, asset := "10458941",
    extra := some [("feePayer", feePayerAddr)] }

/-- Requirements without fee abstraction. -/
def reqNoFee : PaymentRequirements :=
  { scheme := "exact", network := ALGORAND_TESTNET_CAIP2, amount := "1000",
    pay_to := payToAddr, asset := "10458941" }

def acceptedStd : AcceptedInfo :=
  { scheme := "exact", network := ALGORAND_TESTNET_CAIP2 }

def payloadC1 : PaymentPayload :=
  { accepted := acceptedStd, payload := { payment_group := ["fp", "pay"], payment_index := 1 } }

def payloadSolo : PaymentPayload :=
  { accepted := acceptedStd, payload := { payment_group := ["pay"], payment_index := 0 } }

def payloadManaged : PaymentPayload :=
  { accepted := acceptedStd, payload := { payment_group := ["mpay"], payment_index := 0 } }

def payloadShort : PaymentPayload :=
  { accepted := acceptedStd, payload := { payment_group := ["spay"], payment_index := 0 } }

def payloadRekeyed : PaymentPayload :=
  { accepted := acceptedStd, payload := { payment_group := ["rk"], payment_index := 0 } }

def payloadEmpty : PaymentPayload :=
  { accepted := acceptedStd, payload := { payment_group := [], payment_index := 0 } }

def payloadBadIdx : PaymentPayload :=
  { accepted := acceptedStd, payload := { payment_group := ["pay"], payment_index := 1 } }

/-- Realistic 58-character Algorand-format addresses for the client flow
(the length algosdk address strings always have). -/
def clientAddr58 : String := "CLIENTAAAAAAAAAAAAAAAAAAAAAAAAAAAAAAAAAAAAAAAAAAAAAAAAAAAA"
def feePayerAddr58 : String := "FEEPAYERAAAAAAAAAAAAAAAAAAAAAAAAAAAAAAAAAAAAAAAAAAAAAAAAAA"
def payToAddr58 : String := "PAYTOAAAAAAAAAAAAAAAAAAAAAAAAAAAAAAAAAAAAAAAAAAAAAAAAAAAAA"

/-- A concrete client environment with an honest signer that returns
signed bytes exactly at the requested indexes. -/
def envClient : ClientEnv :=
  { address := clientAddr58,
    suggestedParams :=
      { fee := 5000, min_fee := some 1000, first := 1, last := 1000,
        gh := TESTNET_GENESIS_HASH, gen := some "testnet-v1.0",
        flat_fee := false },
    sizeFee := fun _ => 3000,
    groupId := fun _ => "GID",
    msgpackEncode := fun _ => "MSGPACKB64",
    signTransactions := fun l idxs =>
      (List.range l.length).map
        (fun i => if idxs.contains i then some (PyBlob.bytes "SIGNED") else none),
    b64encodeBytes := fun b => "B64-" ++ b }

/-- Fee-abstraction requirements with 58-character addresses. -/
def reqC8 : PaymentRequirements :=
  { scheme := "exact", network := ALGORAND_TESTNET_CAIP2, amount := "1000",
    pay_to := payToAddr58, asset := "10458941",
    extra := some [("feePayer", feePayerAddr58)] }

/-- The same requirements without fee abstraction. -/
def reqC8NoFee : PaymentRequirements :=
  { scheme := "exact", network := ALGORAND_TESTNET_CAIP2, amount := "1000",
    pay_to := payToAddr58, asset := "10458941" }

/-! ### Helper lemmas -/

theorem firstSecurityError_none {l : List DecodedTransactionInfo}
    (h : firstSecurityError l = none) :
    ∀ t ∈ l, validate_no_security_risks t = none := by
  induction l with
  | nil => intro t ht; cases ht
  | cons a as ih =>
    intro t ht
    simp only [firstSecurityError] at h
    cases hv : validate_no_security_risks a with
    | some e => rw [hv] at h; cases h
    | none =>
      rw [hv] at h
      rcases List.mem_cons.mp ht with rfl | ht'
      · exact hv
      · exact ih h t ht'

theorem verify_step9_valid {env : FacilitatorEnv} {g : List String}
    {c payer : String} {fp : Option (String × Nat)} {v : VerifyResponse}
    (h : verify_step9 env g c fp payer = .ok v) (hv : v.is_valid = true) :
    v = { is_valid := true, payer := payer } := by
  unfold verify_step9 at h
  cases fp with
  | none =>
    dsimp only at h
    cases hs : env.simulate_group g c with
    | error e => rw [hs] at h; cases h; simp [vFail] at hv
    | ok u => rw [hs] at h; cases h; rfl
  | some p =>
    obtain ⟨fps, i⟩ := p
    dsimp only at h
    cases hg : env.sign_group g fps [i] c with
    | error e => rw [hg] at h; cases h; simp [vFail] at hv
    | ok gb =>
      rw [hg] at h
      dsimp only at h
      cases hs : env.simulate_group gb c with
      | error e => rw [hs] at h; cases h; simp [vFail] at hv
      | ok u => rw [hs] at h; cases h; rfl

theorem verify_step8_valid {env : FacilitatorEnv} {avm : ExactAvmPayload}
    {r : PaymentRequirements} {c : String}
    {decoded : List DecodedTransactionInfo}
    {txn : DecodedTransactionInfo} {payer : String} {v : VerifyResponse}
    (h : verify_step8 env avm r c decoded txn payer = .ok v)
    (hv : v.is_valid = true) :
    env.signer_addresses.contains txn.sender = false ∧
    v = { is_valid := true, payer := payer } := by
  unfold verify_step8 at h
  split at h
  case isTrue hmanaged => cases h; simp [vFail] at hv
  case isFalse hmanaged =>
    refine ⟨by simpa using hmanaged, ?_⟩
    dsimp only at h
    split at h
    · split at h
      · cases h; simp [vFail] at hv
      · split at h
        · cases h; simp [vFail] at hv
        · split at h
          · cases h; simp [vFail] at hv
          · exact verify_step9_valid h hv
    · exact verify_step9_valid h hv

theorem verify_step7_valid {env : FacilitatorEnv} {avm : ExactAvmPayload}
    {r : PaymentRequirements} {c : String}
    {decoded : List DecodedTransactionInfo} {v : VerifyResponse}
    (h : verify_step7 env avm r c decoded = .ok v)
    (hv : v.is_valid = true) :
    (paymentTxnOf decoded avm.payment_index).type = TXN_TYPE_ASSET_TRANSFER ∧
    (∃ a, str_to_int r.asset = .ok a ∧
      (paymentTxnOf decoded avm.payment_index).asset_index = some a) ∧
    (paymentTxnOf decoded avm.payment_index).asset_receiver = some r.pay_to ∧
    (∃ m, str_to_int r.amount = .ok m ∧
      m ≤ (paymentTxnOf decoded avm.payment_index).asset_amount.getD 0) ∧
    (paymentTxnOf decoded avm.payment_index).is_signed = true ∧
    env.signer_addresses.contains
      (paymentTxnOf decoded avm.payment_index).sender = false ∧
    v = { is_valid := true,
          payer := (paymentTxnOf decoded avm.payment_index).sender } := by
  unfold verify_step7 at h
  dsimp only at h
  split at h
  case isTrue htype => cases h; simp [vFail] at hv
  case isFalse htype =>
    cases ha : str_to_int r.asset with
    | error e => rw [ha] at h; cases h
    | ok required_asset =>
      rw [ha] at h
      dsimp only at h
      split at h
      case isTrue hai => cases h; simp [vFail] at hv
      case isFalse hai =>
        split at h
        case isTrue hrec => cases h; simp [vFail] at hv
        case isFalse hrec =>
          cases hm : str_to_int r.amount with
          | error e => rw [hm] at h; cases h
          | ok required_amount =>
            rw [hm] at h
            dsimp only at h
            split at h
            case isTrue hamt => cases h; simp [vFail] at hv
            case isFalse hamt =>
              split at h
              case isTrue hsig => cases h; simp [vFail] at hv
              case isFalse hsig =>
                obtain ⟨hns, hveq⟩ := verify_step8_valid h hv
                refine ⟨by simpa using htype,
                  ⟨required_asset, rfl, by simpa using hai⟩,
                  by simpa using hrec,
                  ⟨required_amount, rfl, not_lt.mp hamt⟩,
                  by simpa using hsig, hns, hveq⟩

theorem verify_step4_valid {env : FacilitatorEnv} {avm : ExactAvmPayload}
    {r : PaymentRequirements} {c : String}
    {decoded : List DecodedTransactionInfo} {v : VerifyResponse}
    (h : verify_step4 env avm r c decoded = .ok v)
    (hv : v.is_valid = true) :
    (∀ t ∈ decoded, validate_no_security_risks t = none) ∧
    verify_step7 env avm r c decoded = .ok v := by
  unfold verify_step4 at h
  dsimp only at h
  split at h
  · cases h; simp [vFail] at hv
  · split at h
    · cases h; simp [vFail] at hv
    · cases hg : get_genesis_hash c with
      | error e => rw [hg] at h; cases h
      | ok egh =>
        rw [hg] at h
        dsimp only at h
        split at h
        · cases h; simp [vFail] at hv
        · cases hse : firstSecurityError decoded with
          | some e => rw [hse] at h; cases h; simp [vFail] at hv
          | none =>
            rw [hse] at h
            exact ⟨firstSecurityError_none hse, h⟩

theorem verify_step2_valid {env : FacilitatorEnv} {avm : ExactAvmPayload}
    {r : PaymentRequirements} {c : String} {v : VerifyResponse}
    (h : verify_step2 env avm r c = .ok v)
    (hv : v.is_valid = true) :
    ∃ decoded,
      mapExcept env.decode avm.payment_group = .ok decoded ∧
      avm.payment_group ≠ [] ∧
      avm.payment_group.length ≤ MAX_GROUP_SIZE ∧
      0 ≤ avm.payment_index ∧
      avm.payment_index < (avm.payment_group.length : Int) ∧
      verify_step4 env avm r c decoded = .ok v := by
  unfold verify_step2 at h
  split at h
  case isTrue hempty => cases h; simp [vFail] at hv
  case isFalse hempty =>
    split at h
    case isTrue hlarge => cases h; simp [vFail] at hv
    case isFalse hlarge =>
      split at h
      case isTrue hidx => cases h; simp [vFail] at hv
      case isFalse hidx =>
        cases hd : mapExcept env.decode avm.payment_group with
        | error e => rw [hd] at h; cases h; simp [vFail] at hv
        | ok decoded =>
          rw [hd] at h
          refine ⟨decoded, rfl, ?_, ?_, ?_, ?_, h⟩
          · simpa [List.isEmpty_iff] using hempty
          · omega
          · simp only [Bool.or_eq_true, decide_eq_true_eq, not_or] at hidx
            omega
          · simp only [Bool.or_eq_true, decide_eq_true_eq, not_or] at hidx
            omega

theorem verify_valid_parts {env : FacilitatorEnv} {p : PaymentPayload}
    {r : PaymentRequirements} {v : VerifyResponse}
    (h : verify env p r = .ok v) (hv : v.is_valid = true) :
    ∃ caip2, normalize_network r.network = .ok caip2 ∧
      verify_step2 env p.payload r caip2 = .ok v := by
  unfold verify at h
  cases hn : normalize_network r.network with
  | error e => rw [hn] at h; cases h
  | ok caip2 =>
    rw [hn] at h
    dsimp only at h
    split at h
    case isTrue hsch => cases h; simp [vFail] at hv
    case isFalse hsch =>
      split at h
      case isTrue hnet => cases h; simp [vFail] at hv
      case isFalse hnet =>
        exact ⟨caip2, rfl, h⟩

theorem verify_reaches_step2 {env : FacilitatorEnv} {p : PaymentPayload}
    {r : PaymentRequirements} {c : String}
    (hn : normalize_network r.network = .ok c)
    (h1 : p.accepted.scheme = SCHEME_EXACT) (h2 : r.scheme = SCHEME_EXACT)
    (h3 : p.accepted.network = r.network) :
    verify env p r = verify_step2 env p.payload r c := by
  unfold verify
  rw [hn]
  simp [h1, h2, h3]

theorem verify_step2_reaches_decode {env : FacilitatorEnv}
    {avm : ExactAvmPayload} {r : PaymentRequirements} {c : String}
    (hne : avm.payment_group ≠ [])
    (hlen : avm.payment_group.length ≤ MAX_GROUP_SIZE)
    (hlo : 0 ≤ avm.payment_index)
    (hhi : avm.payment_index < (avm.payment_group.length : Int)) :
    verify_step2 env avm r c =
      match mapExcept env.decode avm.payment_group with
      | .error e => .ok (vFail ERR_GROUP_DECODE_FAILED "" (some e))
      | .ok decoded => verify_step4 env avm r c decoded := by
  unfold verify_step2
  rw [if_neg, if_neg, if_neg]
  · simp only [Bool.or_eq_true, decide_eq_true_eq, not_or]
    constructor
    · omega
    · omega
  · omega
  · simp [List.isEmpty_iff, hne]

theorem verify_step4_reaches_step7 {env : FacilitatorEnv}
    {avm : ExactAvmPayload} {r : PaymentRequirements} {c egh : String}
    {decoded : List DecodedTransactionInfo}
    (hgid : 1 < decoded.length →
      truthyStr ((decoded.get? 0).getD default).group = true ∧
      decoded.tail.all
        (fun t => t.group == ((decoded.get? 0).getD default).group) = true)
    (hg : get_genesis_hash c = .ok egh)
    (hgen : decoded.all (fun t => t.genesis_hash == egh) = true)
    (hsec : firstSecurityError decoded = none) :
    verify_step4 env avm r c decoded = verify_step7 env avm r c decoded := by
  unfold verify_step4
  dsimp only
  rw [if_neg, if_neg, hg]
  · dsimp only
    rw [if_neg, hsec]
    intro hcon
    rw [List.any_eq_true] at hcon
    obtain ⟨t, ht, hcon⟩ := hcon
    rw [List.all_eq_true] at hgen
    simp [hgen t ht] at hcon
  · intro hcon
    rw [Bool.and_eq_true] at hcon
    obtain ⟨hlt, hany⟩ := hcon
    rw [List.any_eq_true] at hany
    obtain ⟨t, ht, hcon⟩ := hany
    have hall := (hgid (by simpa using hlt)).2
    rw [List.all_eq_true] at hall
    simp only [List.get?_eq_getElem?] at hall
    simp [hall t ht] at hcon
  · intro hcon
    rw [Bool.and_eq_true] at hcon
    obtain ⟨hlt, hfg⟩ := hcon
    have h0 := (hgid (by simpa using hlt)).1
    simp only [List.get?_eq_getElem?] at h0 hfg
    simp [h0] at hfg

theorem verify_step7_reaches_step8 {env : FacilitatorEnv}
    {avm : ExactAvmPayload} {r : PaymentRequirements} {c : String}
    {decoded : List DecodedTransactionInfo} {a m : Int}
    (htype : (paymentTxnOf decoded avm.payment_index).type
      = TXN_TYPE_ASSET_TRANSFER)
    (ha : str_to_int r.asset = .ok a)
    (hai : (paymentTxnOf decoded avm.payment_index).asset_index = some a)
    (hrec : (paymentTxnOf decoded avm.payment_index).asset_receiver
      = some r.pay_to)
    (hm : str_to_int r.amount = .ok m)
    (hamt : m ≤ (paymentTxnOf decoded avm.payment_index).asset_amount.getD 0)
    (hsig : (paymentTxnOf decoded avm.payment_index).is_signed = true) :
    verify_step7 env avm r c decoded =
      verify_step8 env avm r c decoded (paymentTxnOf decoded avm.payment_index)
        (paymentTxnOf decoded avm.payment_index).sender := by
  unfold verify_step7
  dsimp only
  rw [if_neg, ha]
  · dsimp only
    rw [if_neg, if_neg, hm]
    · dsimp only
      rw [if_neg, if_neg]
      · simp [hsig]
      · omega
    · simp [hrec]
    · simp [hai]
  · simp [htype]

/-- The full success inversion of `verify`: everything that must hold of a
payload on which `verify` returns a valid response. -/
theorem verify_valid_inv {env : FacilitatorEnv} {p : PaymentPayload}
    {r : PaymentRequirements} {v : VerifyResponse}
    (h : verify env p r = .ok v) (hv : v.is_valid = true) :
    ∃ decoded,
      mapExcept env.decode p.payload.payment_group = .ok decoded ∧
      p.payload.payment_group ≠ [] ∧
      p.payload.payment_group.length ≤ MAX_GROUP_SIZE ∧
      0 ≤ p.payload.payment_index ∧
      p.payload.payment_index < (p.payload.payment_group.length : Int) ∧
      (∀ t ∈ decoded, validate_no_security_risks t = none) ∧
      (paymentTxnOf decoded p.payload.payment_index).type
        = TXN_TYPE_ASSET_TRANSFER ∧
      (∃ a, str_to_int r.asset = .ok a ∧
        (paymentTxnOf decoded p.payload.payment_index).asset_index = some a) ∧
      (paymentTxnOf decoded p.payload.payment_index).asset_receiver
        = some r.pay_to ∧
      (∃ m, str_to_int r.amount = .ok m ∧
        m ≤ (paymentTxnOf decoded p.payload.payment_index).asset_amount.getD 0) ∧
      (paymentTxnOf decoded p.payload.payment_index).is_signed = true ∧
      env.signer_addresses.contains
        (paymentTxnOf decoded p.payload.payment_index).sender = false ∧
      v = { is_valid := true,
            payer := (paymentTxnOf decoded p.payload.payment_index).sender } := by
  obtain ⟨caip2, _, h2⟩ := verify_valid_parts h hv
  obtain ⟨decoded, hdec, hne, hlen, hlo, hhi, h4⟩ := verify_step2_valid h2 hv
  obtain ⟨hsec, h7⟩ := verify_step4_valid h4 hv
  obtain ⟨ht, ha, hr, hm, hs, hns, hveq⟩ := verify_step7_valid h7 hv
  exact ⟨decoded, hdec, hne, hlen, hlo, hhi, hsec, ht, ha, hr, hm,
    hs, hns, hveq⟩

theorem mapExcept_length (f : α → Except String β) (l : List α) (bs : List β)
    (h : mapExcept f l = .ok bs) : bs.length = l.length := by
  induction l generalizing bs with
  | nil => simp [mapExcept] at h; simp [← h]
  | cons a as ih =>
    simp only [mapExcept] at h
    cases hfa : f a with
    | error e => simp [hfa] at h
    | ok b =>
      simp only [hfa] at h
      cases hrest : mapExcept f as with
      | error e => simp [hrest] at h
      | ok bs0 =>
        simp only [hrest] at h
        cases h
        simp [ih bs0 hrest]


theorem settle_of_verify_invalid {env : FacilitatorEnv} {p : PaymentPayload}
    {r : PaymentRequirements} {c : String} {v : VerifyResponse}
    (hn : normalize_network p.accepted.network = .ok c)
    (hverify : verify env p r = .ok v) (hv : v.is_valid = false) :
    settle env p r = .ok
      { success := false, transaction := "", network := p.accepted.network,
        payer := v.payer, error_reason := v.invalid_reason,
        error_message := v.invalid_message } := by
  unfold settle
  dsimp only
  rw [hn]
  dsimp only
  rw [hverify]
  dsimp only
  rw [if_pos]
  simp [hv]

theorem settle_success_of {env : FacilitatorEnv} {p : PaymentPayload}
    {r : PaymentRequirements} {s : SettleResponse}
    (h : settle env p r = .ok s) (hs : s.success = true) :
    ∃ v, verify env p r = .ok v ∧ v.is_valid = true := by
  unfold settle at h
  dsimp only at h
  cases hn : normalize_network p.accepted.network with
  | error e => rw [hn] at h; cases h
  | ok c =>
    rw [hn] at h
    dsimp only at h
    cases hvf : verify env p r with
    | error e => rw [hvf] at h; cases h
    | ok v =>
      rw [hvf] at h
      dsimp only at h
      by_cases hv : v.is_valid = true
      · exact ⟨v, rfl, hv⟩
      · rw [if_pos (by simp [hv])] at h
        cases h
        simp at hs

/-- Sibling of `verify_step4_reaches_step7`: when the group-id and genesis
checks pass but the security pass finds an error, that error is returned. -/
theorem verify_step4_security_fail {env : FacilitatorEnv}
    {avm : ExactAvmPayload} {r : PaymentRequirements} {c egh e : String}
    {decoded : List DecodedTransactionInfo}
    (hgid : 1 < decoded.length →
      truthyStr ((decoded.get? 0).getD default).group = true ∧
      decoded.tail.all
        (fun t => t.group == ((decoded.get? 0).getD default).group) = true)
    (hg : get_genesis_hash c = .ok egh)
    (hgen : decoded.all (fun t => t.genesis_hash == egh) = true)
    (hsec : firstSecurityError decoded = some e) :
    verify_step4 env avm r c decoded = .ok (vFail e "") := by
  unfold verify_step4
  dsimp only
  rw [if_neg, if_neg, hg]
  · dsimp only
    rw [if_neg, hsec]
    intro hcon
    rw [List.any_eq_true] at hcon
    obtain ⟨t, ht, hcon⟩ := hcon
    rw [List.all_eq_true] at hgen
    simp [hgen t ht] at hcon
  · intro hcon
    rw [Bool.and_eq_true] at hcon
    obtain ⟨hlt, hany⟩ := hcon
    rw [List.any_eq_true] at hany
    obtain ⟨t, ht, hcon⟩ := hany
    have hall := (hgid (by simpa using hlt)).2
    rw [List.all_eq_true] at hall
    simp only [List.get?_eq_getElem?] at hall
    simp [hall t ht] at hcon
  · intro hcon
    rw [Bool.and_eq_true] at hcon
    obtain ⟨hlt, hfg⟩ := hcon
    have h0 := (hgid (by simpa using hlt)).1
    simp only [List.get?_eq_getElem?] at h0 hfg
    simp [h0] at hfg

/-- `verify` reduces to the security/payment stage once the gates, the size
bounds and the decode step pass. -/
theorem verify_reaches_step4 {env : FacilitatorEnv} {p : PaymentPayload}
    {r : PaymentRequirements} {c : String}
    {decoded : List DecodedTransactionInfo}
    (hn : normalize_network r.network = .ok c)
    (h1 : p.accepted.scheme = SCHEME_EXACT) (h2 : r.scheme = SCHEME_EXACT)
    (h3 : p.accepted.network = r.network)
    (hne : p.payload.payment_group ≠ [])
    (hlen : p.payload.payment_group.length ≤ MAX_GROUP_SIZE)
    (hlo : 0 ≤ p.payload.payment_index)
    (hhi : p.payload.payment_index < (p.payload.payment_group.length : Int))
    (hdec : mapExcept env.decode p.payload.payment_group = .ok decoded) :
    verify env p r = verify_step4 env p.payload r c decoded := by
  rw [verify_reaches_step2 hn h1 h2 h3,
    verify_step2_reaches_decode hne hlen hlo hhi, hdec]

/-- `verify` reduces to the payment-transaction stage once additionally the
group-id, genesis and security checks pass. -/
theorem verify_reaches_step7 {env : FacilitatorEnv} {p : PaymentPayload}
    {r : PaymentRequirements} {c egh : String}
    {decoded : List DecodedTransactionInfo}
    (hn : normalize_network r.network = .ok c)
    (h1 : p.accepted.scheme = SCHEME_EXACT) (h2 : r.scheme = SCHEME_EXACT)
    (h3 : p.accepted.network = r.network)
    (hne : p.payload.payment_group ≠ [])
    (hlen : p.payload.payment_group.length ≤ MAX_GROUP_SIZE)
    (hlo : 0 ≤ p.payload.payment_index)
    (hhi : p.payload.payment_index < (p.payload.payment_group.length : Int))
    (hdec : mapExcept env.decode p.payload.payment_group = .ok decoded)
    (hgid : 1 < decoded.length →
      truthyStr ((decoded.get? 0).getD default).group = true ∧
      decoded.tail.all
        (fun t => t.group == ((decoded.get? 0).getD default).group) = true)
    (hg : get_genesis_hash c = .ok egh)
    (hgen : decoded.all (fun t => t.genesis_hash == egh) = true)
    (hsec : firstSecurityError decoded = none) :
    verify env p r = verify_step7 env p.payload r c decoded := by
  rw [verify_reaches_step4 hn h1 h2 h3 hne hlen hlo hhi hdec,
    verify_step4_reaches_step7 hgid hg hgen hsec]

/-! ### Claims -/

/-- C1: the spec requires `verify` to accept a fee-abstraction group only
when the fee-payer transaction's fee is at most
`MAX_REASONABLE_FEE = 16000` microalgos.  The constant exists, and the
docstring of `validate_fee_payer_transaction` lists a fee-reasonableness
check, but the function checks type, sender, receiver, amount, close-to and
rekey only — no fee bound.  Witnessed here: a fee-payer transaction with a
fee of 1,000,000 microalgos passes `validate_fee_payer_transaction` and the
whole group passes `verify`. -/
theorem claim_C1_fee_bound_unenforced :
    MAX_REASONABLE_FEE = 16000 ∧
    feeTxnBig.fee = 1000000 ∧
    MAX_REASONABLE_FEE < feeTxnBig.fee ∧
    validate_fee_payer_transaction feeTxnBig feePayerAddr = none ∧
    verify envC1 payloadC1 reqStd
      = .ok { is_valid := true, payer := clientAddr } :=
  ⟨rfl, rfl, by decide, by decide, by decide⟩

/-- C5: `settle` re-runs `verify` first and refuses on failure, returning
`success := false` with the verify result's `invalid_reason` as
`error_reason` and an empty transaction id — for every environment, so in
particular without consulting the send oracle; and a successful `settle`
implies a valid `verify` of the same inputs. -/
theorem claim_C5_settle_reverifies :
    (∀ (env : FacilitatorEnv) (p : PaymentPayload) (r : PaymentRequirements)
        (c : String) (v : VerifyResponse),
      normalize_network p.accepted.network = .ok c →
      verify env p r = .ok v → v.is_valid = false →
      settle env p r = .ok
        { success := false, transaction := "", network := p.accepted.network,
          payer := v.payer, error_reason := v.invalid_reason,
          error_message := v.invalid_message }) ∧
    (∀ (env : FacilitatorEnv) (p : PaymentPayload) (r : PaymentRequirements)
        (s : SettleResponse),
      settle env p r = .ok s → s.success = true →
      ∃ v, verify env p r = .ok v ∧ v.is_valid = true) :=
  ⟨fun _ _ _ _ _ hn hv hval => settle_of_verify_invalid hn hv hval,
   fun _ _ _ _ h hs => settle_success_of h hs⟩

theorem claim_C5_witness :
    settle envSolo payloadEmpty reqNoFee = .ok
      { success := false, transaction := "", network := ALGORAND_TESTNET_CAIP2,
        payer := "", error_reason := some ERR_EMPTY_GROUP,
        error_message := none } ∧
    (∃ v, verify envSolo payloadSolo reqNoFee = .ok v ∧ v.is_valid = true) :=
  ⟨claim_C5_settle_reverifies.1 envSolo payloadEmpty reqNoFee
      ALGORAND_TESTNET_CAIP2 (vFail ERR_EMPTY_GROUP "")
      (by decide) (by decide) (by decide),
   claim_C5_settle_reverifies.2 envSolo payloadSolo reqNoFee
      { success := true, transaction := "TXID",
        network := ALGORAND_TESTNET_CAIP2, payer := clientAddr }
      (by decide) rfl⟩

/-- C2: the self-custody guard.  (a) `verify` never returns a valid
response whose payment transaction is sent by a facilitator-managed
address.  (b) When every check preceding the guard passes (the hypotheses
list them; none of them mentions `requirements.extra.feePayer`, so the
rejection applies whether or not fee abstraction is requested), a
facilitator-managed payment sender is rejected with
`fee_payer_transferring_funds`. -/
theorem claim_C2_self_custody_guard :
    (∀ (env : FacilitatorEnv) (p : PaymentPayload) (r : PaymentRequirements)
        (v : VerifyResponse) (decoded : List DecodedTransactionInfo),
      verify env p r = .ok v → v.is_valid = true →
      mapExcept env.decode p.payload.payment_group = .ok decoded →
      env.signer_addresses.contains
        (paymentTxnOf decoded p.payload.payment_index).sender = false) ∧
    (∀ (env : FacilitatorEnv) (p : PaymentPayload) (r : PaymentRequirements)
        (c egh : String) (decoded : List DecodedTransactionInfo) (a m : Int),
      normalize_network r.network = .ok c →
      p.accepted.scheme = SCHEME_EXACT → r.scheme = SCHEME_EXACT →
      p.accepted.network = r.network →
      p.payload.payment_group ≠ [] →
      p.payload.payment_group.length ≤ MAX_GROUP_SIZE →
      0 ≤ p.payload.payment_index →
      p.payload.payment_index < (p.payload.payment_group.length : Int) →
      mapExcept env.decode p.payload.payment_group = .ok decoded →
      (1 < decoded.length →
        truthyStr ((decoded.get? 0).getD default).group = true ∧
        decoded.tail.all
          (fun t => t.group == ((decoded.get? 0).getD default).group) = true) →
      get_genesis_hash c = .ok egh →
      decoded.all (fun t => t.genesis_hash == egh) = true →
      firstSecurityError decoded = none →
      (paymentTxnOf decoded p.payload.payment_index).type
        = TXN_TYPE_ASSET_TRANSFER →
      str_to_int r.asset = .ok a →
      (paymentTxnOf decoded p.payload.payment_index).asset_index = some a →
      (paymentTxnOf decoded p.payload.payment_index).asset_receiver
        = some r.pay_to →
      str_to_int r.amount = .ok m →
      m ≤ (paymentTxnOf decoded p.payload.payment_index).asset_amount.getD 0 →
      (paymentTxnOf decoded p.payload.payment_index).is_signed = true →
      env.signer_addresses.contains
        (paymentTxnOf decoded p.payload.payment_index).sender = true →
      verify env p r = .ok (vFail ERR_FEE_PAYER_TRANSFERRING
        (paymentTxnOf decoded p.payload.payment_index).sender)) := by
  constructor
  · intro env p r v decoded h hv hdec
    obtain ⟨d2, hdec2, -, -, -, -, -, -, -, -, -, -, hns, -⟩ :=
      verify_valid_inv h hv
    rw [hdec] at hdec2
    cases hdec2
    exact hns
  · intro env p r c egh decoded a m hn h1 h2 h3 hne hlen hlo hhi hdec hgid hg
      hgen hsec htype ha hai hrec hm hamt hsig hmanaged
    rw [verify_reaches_step7 hn h1 h2 h3 hne hlen hlo hhi hdec hgid hg hgen
        hsec,
      verify_step7_reaches_step8 htype ha hai hrec hm hamt hsig]
    unfold verify_step8
    dsimp only
    have hmem : (paymentTxnOf decoded p.payload.payment_index).sender
        ∈ env.signer_addresses := by simpa using hmanaged
    simp [hmem]

theorem claim_C2_witness :
    verify envManaged payloadManaged reqNoFee
      = .ok (vFail ERR_FEE_PAYER_TRANSFERRING feePayerAddr) :=
  claim_C2_self_custody_guard.2 envManaged payloadManaged reqNoFee
    ALGORAND_TESTNET_CAIP2 TESTNET_GENESIS_HASH [axferManaged] 10458941 1000
    (by decide) (by decide) (by decide) (by decide) (by decide) (by decide)
    (by decide) (by decide) (by decide) (by decide) (by decide) (by decide)
    (by decide) (by decide) (by decide) (by decide) (by decide) (by decide)
    (by decide) (by decide) (by decide)

/-- The four facts guaranteed of a transaction that passes
`validate_no_security_risks`. -/
theorem validate_none_facts {t : DecodedTransactionInfo}
    (h : validate_no_security_risks t = none) :
    truthyStr t.rekey_to = false ∧
    (t.type = TXN_TYPE_PAYMENT → truthyStr t.close_remainder_to = false) ∧
    (t.type = TXN_TYPE_ASSET_TRANSFER → truthyStr t.asset_close_to = false) ∧
    t.type ≠ TXN_TYPE_KEY_REGISTRATION := by
  unfold validate_no_security_risks at h
  by_cases h1 : truthyStr t.rekey_to = true
  · simp [h1] at h
  · by_cases h2 : (t.type == TXN_TYPE_PAYMENT
        && truthyStr t.close_remainder_to) = true
    · simp [h1, h2] at h
    · by_cases h3 : (t.type == TXN_TYPE_ASSET_TRANSFER
          && truthyStr t.asset_close_to) = true
      · simp [h1, h2, h3] at h
      · by_cases h4 : is_blocked_transaction_type t.type = true
        · simp [h1, h2, h3, h4] at h
        · refine ⟨by simpa using h1, ?_, ?_, ?_⟩
          · intro hp
            have h2f := Bool.not_eq_true _ ▸ h2
            simpa [hp] using h2f
          · intro hp
            have h3f := Bool.not_eq_true _ ▸ h3
            simpa [hp] using h3f
          · intro hk
            apply h4
            simp [is_blocked_transaction_type, BLOCKED_TXN_TYPES, hk]

/-- C6: the security pass.  (a) No group accepted by `verify` contains a
transaction with a truthy rekey address, a truthy close-to address on a
pay or axfer transaction, or type keyreg.  (b) `validate_no_security_risks`
reports the respective reason for each offence.  (c) When the checks
preceding the security pass succeed, `verify` rejects such a group with the
reason of the first offending transaction. -/
theorem claim_C6_security_pass :
    (∀ (env : FacilitatorEnv) (p : PaymentPayload) (r : PaymentRequirements)
        (v : VerifyResponse) (decoded : List DecodedTransactionInfo),
      verify env p r = .ok v → v.is_valid = true →
      mapExcept env.decode p.payload.payment_group = .ok decoded →
      ∀ t ∈ decoded,
        truthyStr t.rekey_to = false ∧
        (t.type = TXN_TYPE_PAYMENT → truthyStr t.close_remainder_to = false) ∧
        (t.type = TXN_TYPE_ASSET_TRANSFER →
          truthyStr t.asset_close_to = false) ∧
        t.type ≠ TXN_TYPE_KEY_REGISTRATION) ∧
    (∀ t : DecodedTransactionInfo,
      (truthyStr t.rekey_to = true →
        validate_no_security_risks t = some ERR_REKEY_DETECTED) ∧
      (truthyStr t.rekey_to = false → t.type = TXN_TYPE_PAYMENT →
        truthyStr t.close_remainder_to = true →
        validate_no_security_risks t = some ERR_CLOSE_TO_DETECTED) ∧
      (truthyStr t.rekey_to = false → t.type = TXN_TYPE_ASSET_TRANSFER →
        truthyStr t.asset_close_to = true →
        validate_no_security_risks t = some ERR_CLOSE_TO_DETECTED) ∧
      (truthyStr t.rekey_to = false → t.type = TXN_TYPE_KEY_REGISTRATION →
        validate_no_security_risks t = some ERR_BLOCKED_TXN_TYPE)) ∧
    (∀ (env : FacilitatorEnv) (p : PaymentPayload) (r : PaymentRequirements)
        (c egh e : String) (decoded : List DecodedTransactionInfo),
      normalize_network r.network = .ok c →
      p.accepted.scheme = SCHEME_EXACT → r.scheme = SCHEME_EXACT →
      p.accepted.network = r.network →
      p.payload.payment_group ≠ [] →
      p.payload.payment_group.length ≤ MAX_GROUP_SIZE →
      0 ≤ p.payload.payment_index →
      p.payload.payment_index < (p.payload.payment_group.length : Int) →
      mapExcept env.decode p.payload.payment_group = .ok decoded →
      (1 < decoded.length →
        truthyStr ((decoded.get? 0).getD default).group = true ∧
        decoded.tail.all
          (fun t => t.group == ((decoded.get? 0).getD default).group) = true) →
      get_genesis_hash c = .ok egh →
      decoded.all (fun t => t.genesis_hash == egh) = true →
      firstSecurityError decoded = some e →
      verify env p r = .ok (vFail e "")) := by
  refine ⟨?_, ?_, ?_⟩
  · intro env p r v decoded h hv hdec t ht
    obtain ⟨d2, hdec2, -, -, -, -, hsec, -, -, -, -, -, -, -⟩ :=
      verify_valid_inv h hv
    rw [hdec] at hdec2
    cases hdec2
    exact validate_none_facts (hsec t ht)
  · intro t
    refine ⟨?_, ?_, ?_, ?_⟩
    · intro h1
      unfold validate_no_security_risks
      simp [h1]
    · intro h1 hp hc
      unfold validate_no_security_risks
      simp [h1, hp, hc, TXN_TYPE_PAYMENT]
    · intro h1 hp hc
      unfold validate_no_security_risks
      simp [h1, hp, hc, TXN_TYPE_PAYMENT, TXN_TYPE_ASSET_TRANSFER]
    · intro h1 hk
      unfold validate_no_security_risks
      simp [h1, hk, TXN_TYPE_PAYMENT, TXN_TYPE_ASSET_TRANSFER,
        TXN_TYPE_KEY_REGISTRATION, is_blocked_transaction_type,
        BLOCKED_TXN_TYPES]
  · intro env p r c egh e decoded hn h1 h2 h3 hne hlen hlo hhi hdec hgid hg
      hgen hsec
    rw [verify_reaches_step4 hn h1 h2 h3 hne hlen hlo hhi hdec,
      verify_step4_security_fail hgid hg hgen hsec]

theorem claim_C6_witness :
    verify envRekeyed payloadRekeyed reqNoFee
      = .ok (vFail ERR_REKEY_DETECTED "") :=
  claim_C6_security_pass.2.2 envRekeyed payloadRekeyed reqNoFee
    ALGORAND_TESTNET_CAIP2 TESTNET_GENESIS_HASH ERR_REKEY_DETECTED
    [axferRekeyed]
    (by decide) (by decide) (by decide) (by decide) (by decide) (by decide)
    (by decide) (by decide) (by decide) (by decide) (by decide) (by decide)
    (by decide)

/-- C7: the group-size bounds come before decoding and behave as stated:
empty group, more than 16 transactions, and out-of-range payment index are
rejected with their respective reasons, and inside the bounds `verify`
proceeds to the decode step (the first three conjuncts hold for every
environment, in particular for one whose decoder always fails, which is
what "before decoding" means). -/
theorem claim_C7_group_bounds :
    ∀ (env : FacilitatorEnv) (p : PaymentPayload) (r : PaymentRequirements)
      (c : String),
      normalize_network r.network = .ok c →
      p.accepted.scheme = SCHEME_EXACT → r.scheme = SCHEME_EXACT →
      p.accepted.network = r.network →
      (p.payload.payment_group = [] →
        verify env p r = .ok (vFail ERR_EMPTY_GROUP "")) ∧
      (MAX_GROUP_SIZE < p.payload.payment_group.length →
        verify env p r = .ok (vFail ERR_GROUP_TOO_LARGE "")) ∧
      (p.payload.payment_group ≠ [] →
        p.payload.payment_group.length ≤ MAX_GROUP_SIZE →
        (p.payload.payment_index < 0 ∨
          (p.payload.payment_group.length : Int) ≤ p.payload.payment_index) →
        verify env p r = .ok (vFail ERR_INVALID_PAYMENT_INDEX "")) ∧
      (p.payload.payment_group ≠ [] →
        p.payload.payment_group.length ≤ MAX_GROUP_SIZE →
        0 ≤ p.payload.payment_index →
        p.payload.payment_index < (p.payload.payment_group.length : Int) →
        verify env p r =
          match mapExcept env.decode p.payload.payment_group with
          | .error e => .ok (vFail ERR_GROUP_DECODE_FAILED "" (some e))
          | .ok decoded => verify_step4 env p.payload r c decoded) := by
  intro env p r c hn h1 h2 h3
  refine ⟨?_, ?_, ?_, ?_⟩
  · intro hempty
    rw [verify_reaches_step2 hn h1 h2 h3]
    unfold verify_step2
    rw [if_pos (by simp [hempty])]
  · intro hlarge
    have hne : p.payload.payment_group ≠ [] := by
      intro he
      rw [he] at hlarge
      simp [MAX_GROUP_SIZE] at hlarge
    rw [verify_reaches_step2 hn h1 h2 h3]
    unfold verify_step2
    rw [if_neg (by simp [List.isEmpty_iff, hne]), if_pos hlarge]
  · intro hne hlen hbad
    rw [verify_reaches_step2 hn h1 h2 h3]
    unfold verify_step2
    rw [if_neg (by simp [List.isEmpty_iff, hne]), if_neg (by omega),
      if_pos (by rcases hbad with hb | hb <;> simp [hb])]
  · intro hne hlen hlo hhi
    rw [verify_reaches_step2 hn h1 h2 h3,
      verify_step2_reaches_decode hne hlen hlo hhi]

theorem claim_C7_witness :
    verify envSolo payloadEmpty reqNoFee = .ok (vFail ERR_EMPTY_GROUP "") ∧
    verify envSolo payloadBadIdx reqNoFee
      = .ok (vFail ERR_INVALID_PAYMENT_INDEX "") :=
  ⟨(claim_C7_group_bounds envSolo payloadEmpty reqNoFee
      ALGORAND_TESTNET_CAIP2 (by decide) (by decide) (by decide)
      (by decide)).1 (by decide),
   (claim_C7_group_bounds envSolo payloadBadIdx reqNoFee
      ALGORAND_TESTNET_CAIP2 (by decide) (by decide) (by decide)
      (by decide)).2.2.1 (by decide) (by decide) (by decide)⟩

/-- C3: properties of the payment transaction behind a valid verify.
(a) On every accepted payload the reported payer is the sender of the
decoded transaction at `paymentIndex`, which is a signed axfer whose asset
id is `int(requirements.asset)`, whose receiver is `requirements.payTo`
and whose amount is at least `int(requirements.amount)`.  (b) With every
other check passing, an amount strictly below the requirement (in
particular `amount - 1`) is rejected with `amount_insufficient`, while an
amount equal to or above it passes the amount and signature checks and
verification proceeds to the fee-payer stage. -/
theorem claim_C3_payment_txn_checks :
    (∀ (env : FacilitatorEnv) (p : PaymentPayload) (r : PaymentRequirements)
        (v : VerifyResponse) (decoded : List DecodedTransactionInfo),
      verify env p r = .ok v → v.is_valid = true →
      mapExcept env.decode p.payload.payment_group = .ok decoded →
      v.payer = (paymentTxnOf decoded p.payload.payment_index).sender ∧
      (paymentTxnOf decoded p.payload.payment_index).type
        = TXN_TYPE_ASSET_TRANSFER ∧
      (∃ a, str_to_int r.asset = .ok a ∧
        (paymentTxnOf decoded p.payload.payment_index).asset_index = some a) ∧
      (paymentTxnOf decoded p.payload.payment_index).asset_receiver
        = some r.pay_to ∧
      (∃ m, str_to_int r.amount = .ok m ∧
        m ≤ (paymentTxnOf decoded p.payload.payment_index).asset_amount.getD 0) ∧
      (paymentTxnOf decoded p.payload.payment_index).is_signed = true) ∧
    (∀ (env : FacilitatorEnv) (p : PaymentPayload) (r : PaymentRequirements)
        (c egh : String) (decoded : List DecodedTransactionInfo) (a m : Int),
      normalize_network r.network = .ok c →
      p.accepted.scheme = SCHEME_EXACT → r.scheme = SCHEME_EXACT →
      p.accepted.network = r.network →
      p.payload.payment_group ≠ [] →
      p.payload.payment_group.length ≤ MAX_GROUP_SIZE →
      0 ≤ p.payload.payment_index →
      p.payload.payment_index < (p.payload.payment_group.length : Int) →
      mapExcept env.decode p.payload.payment_group = .ok decoded →
      (1 < decoded.length →
        truthyStr ((decoded.get? 0).getD default).group = true ∧
        decoded.tail.all
          (fun t => t.group == ((decoded.get? 0).getD default).group) = true) →
      get_genesis_hash c = .ok egh →
      decoded.all (fun t => t.genesis_hash == egh) = true →
      firstSecurityError decoded = none →
      (paymentTxnOf decoded p.payload.payment_index).type
        = TXN_TYPE_ASSET_TRANSFER →
      str_to_int r.asset = .ok a →
      (paymentTxnOf decoded p.payload.payment_index).asset_index = some a →
      (paymentTxnOf decoded p.payload.payment_index).asset_receiver
        = some r.pay_to →
      str_to_int r.amount = .ok m →
      ((paymentTxnOf decoded p.payload.payment_index).asset_amount.getD 0 < m →
        verify env p r = .ok (vFail ERR_AMOUNT_INSUFFICIENT
          (paymentTxnOf decoded p.payload.payment_index).sender)) ∧
      (m ≤ (paymentTxnOf decoded p.payload.payment_index).asset_amount.getD 0 →
        (paymentTxnOf decoded p.payload.payment_index).is_signed = true →
        verify env p r = verify_step8 env p.payload r c decoded
          (paymentTxnOf decoded p.payload.payment_index)
          (paymentTxnOf decoded p.payload.payment_index).sender)) := by
  constructor
  · intro env p r v decoded h hv hdec
    obtain ⟨d2, hdec2, -, -, -, -, -, ht, ha, hr, hm, hs, -, hveq⟩ :=
      verify_valid_inv h hv
    rw [hdec] at hdec2
    cases hdec2
    exact ⟨by rw [hveq], ht, ha, hr, hm, hs⟩
  · intro env p r c egh decoded a m hn h1 h2 h3 hne hlen hlo hhi hdec hgid hg
      hgen hsec htype ha hai hrec hm
    constructor
    · intro hlt
      rw [verify_reaches_step7 hn h1 h2 h3 hne hlen hlo hhi hdec hgid hg hgen
          hsec]
      unfold verify_step7
      dsimp only
      rw [if_neg (by simp [htype]), ha]
      dsimp only
      rw [if_neg (by simp [hai]), if_neg (by simp [hrec]), hm]
      dsimp only
      rw [if_pos hlt]
    · intro hamt hsig
      rw [verify_reaches_step7 hn h1 h2 h3 hne hlen hlo hhi hdec hgid hg hgen
          hsec,
        verify_step7_reaches_step8 htype ha hai hrec hm hamt hsig]

theorem claim_C3_witness :
    ({ is_valid := true, payer := clientAddr } : VerifyResponse).payer
      = (paymentTxnOf [axferSolo] 0).sender ∧
    (paymentTxnOf [axferSolo] 0).type = TXN_TYPE_ASSET_TRANSFER ∧
    (∃ a, str_to_int reqNoFee.asset = .ok a ∧
      (paymentTxnOf [axferSolo] 0).asset_index = some a) ∧
    (paymentTxnOf [axferSolo] 0).asset_receiver = some reqNoFee.pay_to ∧
    (∃ m, str_to_int reqNoFee.amount = .ok m ∧
      m ≤ (paymentTxnOf [axferSolo] 0).asset_amount.getD 0) ∧
    (paymentTxnOf [axferSolo] 0).is_signed = true ∧
    verify envShort payloadShort reqNoFee
      = .ok (vFail ERR_AMOUNT_INSUFFICIENT clientAddr) := by
  have hmain := claim_C3_payment_txn_checks.1 envSolo payloadSolo reqNoFee
    { is_valid := true, payer := clientAddr } [axferSolo]
    (by decide) (by decide) (by decide)
  have hshort := (claim_C3_payment_txn_checks.2 envShort payloadShort reqNoFee
    ALGORAND_TESTNET_CAIP2 TESTNET_GENESIS_HASH [axferShort] 10458941 1000
    (by decide) (by decide) (by decide) (by decide) (by decide) (by decide)
    (by decide) (by decide) (by decide) (by decide) (by decide) (by decide)
    (by decide) (by decide) (by decide) (by decide) (by decide)
    (by decide)).1 (by decide)
  exact ⟨hmain.1, hmain.2.1, hmain.2.2.1, hmain.2.2.2.1, hmain.2.2.2.2.1,
    hmain.2.2.2.2.2, hshort⟩

/-- C10: `get_extra` returns `none` exactly when the signer manages no
addresses; otherwise it returns a single-entry `feePayer` dict whose value
is a member of the managed set `get_signers` returns (so it passes the
`fee_payer_not_managed` membership test of `verify`), for every draw of
the random index. -/
theorem claim_C10_get_extra :
    ∀ (env : FacilitatorEnv) (rand : Nat) (network : String),
      (get_extra env rand network = none ↔ env.signer_addresses = []) ∧
      (∀ l, get_extra env rand network = some l →
        ∃ a, l = [("feePayer", a)] ∧ a ∈ get_signers env network ∧
          env.signer_addresses.contains a = true) := by
  intro env rand network
  by_cases h : env.signer_addresses.isEmpty = true
  · constructor
    · simp [get_extra, h, List.isEmpty_iff.mp h]
    · intro l hl
      unfold get_extra at hl
      rw [if_pos h] at hl
      cases hl
  · have hne : env.signer_addresses ≠ [] := by
      simpa [List.isEmpty_iff] using h
    constructor
    · simp [get_extra, h, hne]
    · intro l hl
      unfold get_extra at hl
      rw [if_neg h] at hl
      have hpos : 0 < env.signer_addresses.length := List.length_pos.mpr hne
      have hlt : rand % env.signer_addresses.length
          < env.signer_addresses.length := Nat.mod_lt _ hpos
      have hget : env.signer_addresses.get? (rand % env.signer_addresses.length)
          = some (env.signer_addresses.get ⟨_, hlt⟩) := List.get?_eq_get hlt
      refine ⟨env.signer_addresses.get ⟨_, hlt⟩, ?_, ?_, ?_⟩
      · cases hl
        rw [hget]
        rfl
      · exact List.get_mem _ _ _
      · simp [List.get_mem]

theorem claim_C10_witness :
    ∃ a, [("feePayer", feePayerAddr)] = [("feePayer", a)] ∧
      a ∈ get_signers envSolo "algorand-testnet" ∧
      envSolo.signer_addresses.contains a = true :=
  (claim_C10_get_extra envSolo 0 "algorand-testnet").2
    [("feePayer", feePayerAddr)] (by decide)

/-- C9: the V1 bridge is the V2 handler on translated inputs.  The bridge
equals the composition of the spec-side input translation (rename
`maxAmountRequired` to `amount`, map the network through the V1-to-V2
table), the V2 `verify`/`settle`, and the spec-side output flattening
(which maps the settle network back through the V2-to-V1 table); and the
tables map the names as stated, including the surprising shorthand
`"algorand"` to the mainnet CAIP-2 identifier. -/
theorem claim_C9_v1_bridge :
    (∀ (env : FacilitatorEnv) (p payment_requirements : V1Dict),
      verifyV1 env p payment_requirements =
        match verify env (specTranslatePayload p payment_requirements)
          (specTranslateRequirements payment_requirements) with
        | .error e => .error e
        | .ok res => .ok (specFlattenVerify res)) ∧
    (∀ (env : FacilitatorEnv) (p payment_requirements : V1Dict),
      settleV1 env p payment_requirements =
        match settle env (specTranslatePayload p payment_requirements)
          (specTranslateRequirements payment_requirements) with
        | .error e => .error e
        | .ok res => .ok (specFlattenSettle res)) ∧
    dictGet V1_TO_V2_NETWORK_MAP "algorand" = some ALGORAND_MAINNET_CAIP2 ∧
    dictGet V1_TO_V2_NETWORK_MAP "algorand-mainnet"
      = some ALGORAND_MAINNET_CAIP2 ∧
    dictGet V1_TO_V2_NETWORK_MAP "algorand-testnet"
      = some ALGORAND_TESTNET_CAIP2 ∧
    dictGet V2_TO_V1_NETWORK_MAP ALGORAND_MAINNET_CAIP2
      = some "algorand-mainnet" ∧
    dictGet V2_TO_V1_NETWORK_MAP ALGORAND_TESTNET_CAIP2
      = some "algorand-testnet" :=
  ⟨fun _ _ _ => rfl, fun _ _ _ => rfl, by decide, by decide, by decide,
   by decide, by decide⟩

theorem run_money_parsers_default {parsers : List MoneyParser} {q : Rat}
    {network : String} (h : ∀ p ∈ parsers, p q network = none) :
    run_money_parsers parsers q network
      = default_money_conversion q network := by
  induction parsers with
  | nil => rfl
  | cons p ps ih =>
    unfold run_money_parsers
    rw [h p (List.mem_cons_self p ps)]
    exact ih (fun p' hp' => h p' (List.mem_cons_of_mem _ hp'))

/-- C4 as amended: on a scalar price no registered money parser claims, the
default conversion denominates in the network's USDC ASA with six decimals
and an atomic amount that is the decimal USD value times ten to the sixth,
truncated toward zero (Python `int(...)`) — not rounded to nearest. -/
theorem claim_C4_truncating_conversion :
    ∀ (parsers : List MoneyParser) (s network : String) (q : Rat) (asa : Int),
      parse_money_to_decimal s = .ok q →
      (∀ p ∈ parsers, p q network = none) →
      get_usdc_asa_id network = .ok asa →
      parse_price parsers (.money s) network = .ok
        { amount := toString (int_trunc (q * (10 : Rat) ^ (6 : Nat))),
          asset := toString asa,
          extra := [("decimals", (6 : Int))] } := by
  intro parsers s network q asa hq hp husdc
  unfold parse_price
  dsimp only
  rw [hq]
  dsimp only
  rw [run_money_parsers_default hp]
  unfold default_money_conversion
  rw [husdc]
  rfl

/-- C4 counterexample to the claim as stated: the price `"0.0000015"`
converts to the atomic amount `"1"` (truncation of 1.5), while rounding as
the claim states would give 2, so the produced amount is not the string
form of `round(usd * 10 ^ 6)`. -/
theorem claim_C4_counterexample :
    parse_price [] (.money "0.0000015") ALGORAND_TESTNET_CAIP2 = .ok
      { amount := "1", asset := "10458941",
        extra := [("decimals", (6 : Int))] } ∧
    parse_money_to_decimal "0.0000015" = .ok (decimal_value 15 (-7)) ∧
    round (decimal_value 15 (-7) * (10 : Rat) ^ (6 : Nat)) = 2 ∧
    toString (2 : Int) = "2" ∧ ("1" : String) ≠ "2" := by
  have hpd : parse_decimal_parts (((trimChars "0.0000015".data).dropWhile
      (fun c => c == '$')).filter (fun c => !(c == ','))) = some (15, -7) := by
    decide
  have hparse : parse_money_to_decimal "0.0000015"
      = .ok (decimal_value 15 (-7)) := by
    simp [parse_money_to_decimal, parse_decimal, hpd]
  have husdc : get_usdc_asa_id ALGORAND_TESTNET_CAIP2 = .ok 10458941 := by
    decide
  have hval : decimal_value 15 (-7) * (10 : Rat) ^ (6 : Nat) = 3 / 2 := by
    norm_num [decimal_value]
  have hatomic : to_atomic_amount (decimal_value 15 (-7)) DEFAULT_DECIMALS
      = 1 := by
    rw [to_atomic_amount, show (DEFAULT_DECIMALS : Nat) = 6 from rfl, hval]
    norm_num [int_trunc]
  refine ⟨?_, hparse, ?_, by decide, by decide⟩
  · unfold parse_price
    dsimp only
    rw [hparse]
    dsimp only
    rw [run_money_parsers_default (by intro p hp; cases hp)]
    unfold default_money_conversion
    rw [husdc]
    dsimp only
    rw [hatomic]
    rfl
  · rw [hval]
    norm_num [round_eq]

theorem claim_C4_witness :
    parse_price [] (.money "1.50") ALGORAND_TESTNET_CAIP2 = .ok
      { amount := "1500000", asset := "10458941",
        extra := [("decimals", (6 : Int))] } := by
  have hpd : parse_decimal_parts (((trimChars "1.50".data).dropWhile
      (fun c => c == '$')).filter (fun c => !(c == ','))) = some (150, -2) := by
    decide
  have hparse : parse_money_to_decimal "1.50"
      = .ok (decimal_value 150 (-2)) := by
    simp [parse_money_to_decimal, parse_decimal, hpd]
  have happ := claim_C4_truncating_conversion [] "1.50" ALGORAND_TESTNET_CAIP2
    (decimal_value 150 (-2)) 10458941 hparse (by intro p hp; cases hp)
    (by decide)
  rw [happ]
  have hval : decimal_value 150 (-2) * (10 : Rat) ^ (6 : Nat) = 1500000 := by
    norm_num [decimal_value]
  rw [hval]
  have htr : int_trunc (1500000 : Rat) = 1500000 := by
    norm_num [int_trunc]
  rw [htr]
  rfl

/-- C8: the claim describes `create_payment_payload` returning a
two-transaction fee-abstraction group (unsigned fee-payer self-pay with
note `x402-fee-payer` and flat fee minFee*2, signed asset transfer with
note `x402-payment`, `paymentIndex = 1`) or, without a fee payer, a single
signed asset transfer.  The transaction construction in
client.py:110-182 does build exactly those transactions, but the function
can never return them: client.py:189 applies algosdk
`encoding.encode_address` to `txn.sender`, the 58-character address
string, while `encode_address` demands 32 raw key bytes — raising
`WrongKeyBytesLengthError` for every transaction of either mode —  and,
independently, the msgpack-encoded entries are base64 strings placed in a
bytes-declared list, so the unsigned fee-payer entry would raise
`TypeError` at `base64.b64encode` (client.py:197,211).  Evaluated here:
with realistic 58-character addresses both modes raise, and the str-typed
base64 step raises on its own. -/
theorem claim_C8_payload_construction_raises :
    clientAddr58.length = 58 ∧ feePayerAddr58.length = 58 ∧
    encode_address_py clientAddr58 = .error "WrongKeyBytesLengthError" ∧
    create_payment_payload envClient reqC8
      = .error "WrongKeyBytesLengthError" ∧
    create_payment_payload envClient reqC8NoFee
      = .error "WrongKeyBytesLengthError" ∧
    b64encode_py envClient.b64encodeBytes (PyBlob.str "MSGPACKB64")
      = .error "TypeError: a bytes-like object is required, not str" := by
  refine ⟨by decide, by decide, by decide, by decide, by decide, by decide⟩
end X402
